import Mathlib

/-!
Verification of the CogBench constraint-verification and metrics engine.

The definitions below are a shallow embedding of the Python sources under
`cogbenchv2/`: text is `String` (processed as `List Char` after lowering),
Python floats are modelled as exact rationals (`ℚ`), Python dicts with
possibly-missing keys are modelled with `Option`, and the NLI classifier
(an external model) is an abstract parameter.  Matching semantics follow
Python `re` on ASCII text: `\w` is letter/digit/underscore, `\b` is a
word/non-word boundary, and `x in s` is plain substring containment.
-/

namespace CogBench

/-! ## Text utilities (shared helpers from `constraints/structural.py`,
`constraints/base.py` and Python string semantics) -/

/-- Python `\w` character class on ASCII text: letters, digits, underscore. -/
def isWordChar (c : Char) : Bool := c.isAlphanum || c == '_'

/-- Lower-cased character data of a string: Python `str.lower()` on ASCII. -/
def lowerChars (s : String) : List Char := s.data.map Char.toLower

/-- Substring containment on character lists: Python `needle in hay`. -/
def listContains (needle : List Char) : List Char → Bool
  | [] => needle.isEmpty
  | c :: t => needle.isPrefixOf (c :: t) || listContains needle t

/-- Embeds `_contains_any(text_lower, patterns)` truthiness: some pattern is a
substring of the text. -/
def contains_any (text_lower : List Char) (patterns : List String) : Bool :=
  patterns.any (fun p => listContains p.data text_lower)

/-- Tokenizer accumulator: splits into maximal runs of characters satisfying
`keep`, the semantics of `re.findall` on a one-class-plus pattern. -/
def tokenizeAux (keep : Char → Bool) : List Char → List Char → List (List Char)
  | [], acc => if acc.isEmpty then [] else [acc.reverse]
  | c :: rest, acc =>
    if keep c then tokenizeAux keep rest (c :: acc)
    else if acc.isEmpty then tokenizeAux keep rest []
    else acc.reverse :: tokenizeAux keep rest []

/-- Embeds `re.findall(r'\b\w+\b', text)`: maximal runs of word characters. -/
def wordTokens (text : List Char) : List (List Char) :=
  tokenizeAux isWordChar text []

/-- ASCII lowercase letter test, the `[a-z]` character class. -/
def isAzLower (c : Char) : Bool := 'a' ≤ c && c ≤ 'z'

/-- Embeds `re.findall(r'[a-z]+', text)`: maximal runs of lowercase letters. -/
def alphaTokens (text : List Char) : List (List Char) :=
  tokenizeAux isAzLower text []

/-- Python `str.split()` (split on whitespace runs, no empty parts). -/
def wsTokens (text : List Char) : List (List Char) :=
  tokenizeAux (fun c => !c.isWhitespace) text []

/-- Suffix list tried by the simple stemmer, in source order. -/
def stemSuffixes : List String :=
  ["ing", "tion", "sion", "ment", "ness", "ous", "ive",
   "able", "ible", "ful", "less", "ly", "ed", "er", "est", "es", "s"]

/-- Embeds `_stem` / the loop body of `_stem_words`: strip the first listed suffix
whose removal leaves more than two characters. -/
def stem1 (w : List Char) : List Char :=
  match stemSuffixes.find? (fun suf =>
      decide (suf.data.length + 2 < w.length) && suf.data.isSuffixOf w) with
  | some suf => w.take (w.length - suf.data.length)
  | none => w

/-- Embeds `_stem_words(words)`: lowercase then stem each word. -/
def stem_words (ws : List (List Char)) : List (List Char) :=
  ws.map (fun w => stem1 (w.map Char.toLower))

/-- Embeds `_word_overlap(words_a, words_b)`: fraction of the stemmed-word set of
`a` that also occurs in the stemmed-word set of `b`. -/
def word_overlap (a b : List (List Char)) : ℚ :=
  if a.isEmpty then 0
  else
    let sa := (stem_words a).dedup
    let sb := (stem_words b).dedup
    ((sa.filter (fun w => w ∈ sb)).length : ℚ) / (sa.length : ℚ)

/-- Character at an index, `none` past the end. -/
def charAt (t : List Char) (i : Nat) : Option Char := t.get? i

/-- Wordness of an optional character; out-of-range counts as non-word. -/
def isWordCharOpt : Option Char → Bool
  | none => false
  | some c => isWordChar c

/-- Embeds `\b` boundary between positions `i-1` and `i` of `t`. -/
def boundaryAt (t : List Char) (i : Nat) : Bool :=
  (decide (i ≠ 0) && isWordCharOpt (charAt t (i - 1))) != isWordCharOpt (charAt t i)

/-- Search semantics of `re.search(r'\b' + re.escape(core) + ALT + r'\b', t)`
where `ALT` is a finite set of literal suffix alternatives: some start
position carries a boundary, the literal with one allowed suffix, and a
closing boundary. -/
def boundedFind (core : List Char) (suffixAlts : List (List Char)) (t : List Char) : Bool :=
  (List.range (t.length + 1)).any (fun i =>
    boundaryAt t i &&
    suffixAlts.any (fun suf =>
      (core ++ suf).isPrefixOf (t.drop i) &&
      boundaryAt t (i + core.length + suf.length)))

/-- Inflection alternatives of the concept pattern `(?:s|es|ed|ing)?`. -/
def inflectionAlts : List (List Char) :=
  [[], ['s'], ['e', 's'], ['e', 'd'], ['i', 'n', 'g']]

/-- One concept matched by the word-boundary regex of
`_find_concepts_in_text`. -/
def conceptRegexMatch (c : List Char) (t : List Char) : Bool :=
  boundedFind c inflectionAlts t

/-- Plain `\b word \b` search (no inflection group), used by `IsQuestion`
and the acronym scan. -/
def wordRegexMatch (w : List Char) (t : List Char) : Bool :=
  boundedFind w [[]] t

/-- Embeds `_find_concepts_in_text(text_lower, concepts)`. -/
def find_concepts_in_text (text_lower : List Char) (concepts : List String) : List String :=
  concepts.filter (fun c => conceptRegexMatch (lowerChars c) text_lower)

/-- Python `str.strip()`: drop leading and trailing whitespace. -/
def stripWs (t : List Char) : List Char :=
  ((t.dropWhile Char.isWhitespace).reverse.dropWhile Char.isWhitespace).reverse

/-- Python `str.rstrip(".")`: drop trailing dots. -/
def rstripDots (t : List Char) : List Char :=
  (t.reverse.dropWhile (fun c => c == '.')).reverse

/-! ## Configuration constants (`config.py`) -/

/-- Embeds `BLOOM_VERBS` from `config.py`, as a total map defaulting to `[]`
(Python `BLOOM_VERBS.get(level, [])`). -/
def BLOOM_VERBS : Nat → List String
  | 1 => ["define", "list", "recall", "identify", "name", "state",
          "what is", "who", "when", "where", "which", "label",
          "recognize", "match", "select", "memorize"]
  | 2 => ["explain", "describe", "summarize", "interpret", "paraphrase",
          "illustrate", "discuss", "classify", "compare", "distinguish",
          "infer", "predict", "restate", "translate"]
  | 3 => ["calculate", "solve", "apply", "demonstrate", "implement",
          "use", "compute", "determine", "execute", "practice",
          "operate", "sketch", "modify"]
  | 4 => ["compare", "contrast", "examine", "differentiate", "categorize",
          "distinguish", "relate", "analyze", "organize", "deconstruct",
          "attribute", "outline", "investigate"]
  | 5 => ["assess", "critique", "judge", "justify", "argue", "defend",
          "evaluate", "recommend", "to what extent", "appraise",
          "prioritize", "rate", "support", "conclude"]
  | 6 => ["design", "develop", "propose", "construct", "formulate",
          "synthesize", "create", "devise", "plan", "compose",
          "invent", "produce", "generate", "elaborate"]
  | _ => []

/-- Embeds `BLOOM_LEVELS`, as a partial map (`None` off 1..6). -/
def BLOOM_LEVELS : Nat → Option String
  | 1 => some "Remember"
  | 2 => some "Understand"
  | 3 => some "Apply"
  | 4 => some "Analyze"
  | 5 => some "Evaluate"
  | 6 => some "Create"
  | _ => none

def U_MIN_WORDS : Nat := 10
def U_MAX_WORDS : Nat := 150
def U_MIN_PASSAGE_TERMS : Nat := 2
def U_MAX_WORD_REPEAT : Nat := 3
def R_MAX_CONCEPTS : Nat := 1
def R_MAX_ANSWER_WORDS : Nat := 20
def R_PASSAGE_OVERLAP : ℚ := 60 / 100
def D_MAX_PASSAGE_OVERLAP : ℚ := 70 / 100
def A_MIN_CONCEPTS : Nat := 2
def C_MIN_SPEC_MARKERS : Nat := 2
def C_MIN_ANSWER_WORDS : Nat := 50
def NLI_NOVELTY_THRESHOLD : ℚ := 55 / 100
def SEED : Nat := 42
def BOOTSTRAP_N : Nat := 1000
def CONFIDENCE_LEVEL : ℚ := 95 / 100

/-! ## Data model (`constraints/base.py`) -/

/-- Embeds `QuestionData` from `constraints/base.py`. -/
structure QuestionData where
  question : String
  answer : String
  passage : String
  target_level : Nat
  key_concepts : List String := []
  methods_principles : List String := []
  mode : String := "standard"
  vocab_level : Option Nat := none
  subject : String := ""
  passage_id : String := ""

/-- Embeds `QuestionData.question_lower`. -/
def QuestionData.qlower (d : QuestionData) : List Char := lowerChars d.question

/-- Embeds `QuestionData.answer_lower`. -/
def QuestionData.alower (d : QuestionData) : List Char := lowerChars d.answer

/-- Embeds `QuestionData.passage_lower`. -/
def QuestionData.plower (d : QuestionData) : List Char := lowerChars d.passage

/-- Embeds `QuestionData.question_words`. -/
def QuestionData.question_words (d : QuestionData) : List (List Char) :=
  wordTokens d.qlower

/-- Embeds `QuestionData.answer_words`. -/
def QuestionData.answer_words (d : QuestionData) : List (List Char) :=
  wordTokens d.alower

/-- Embeds `QuestionData.passage_words`. -/
def QuestionData.passage_words (d : QuestionData) : List (List Char) :=
  wordTokens d.plower

/-- Embeds `ConstraintResult` from `constraints/base.py`; `score` is a Python float,
modelled as an exact rational. -/
structure ConstraintResult where
  constraint_id : String
  constraint_name : String
  passed : Bool
  score : ℚ
  details : String
  tier : String
deriving Repr

/-- A constraint object: id/name/tier metadata plus its `check` method.
`check` returns `Except` so that the evaluator boundary can model a Python
exception escaping a rule body; every rule in this library is total and
always returns `Except.ok`. -/
structure Constraint where
  cid : String
  cname : String
  tier : String
  check : QuestionData → Except String ConstraintResult

/-- Embeds `Constraint._result` helper, specialized per constraint below. -/
def mkResult (cid cname tier : String) (passed : Bool) (score : ℚ)
    (details : String) : ConstraintResult :=
  ⟨cid, cname, passed, score, details, tier⟩

/-! ## Universal constraints (`constraints/universal.py`) -/

def TASK_STARTERS : List String :=
  ["evaluate", "assess", "critique", "judge", "argue", "defend",
   "design", "develop", "propose", "construct", "formulate", "create",
   "devise", "plan", "compose", "synthesize"]

def RESPONSE_ENDINGS : List String :=
  ["your argument", "your position", "your response",
   "your reasoning", "your answer", "your analysis",
   "your view", "your opinion", "your stance",
   "the passage", "from the passage", "based on the passage",
   "with evidence", "with examples"]

def QUESTION_WORDS : List String :=
  ["how", "why", "what", "which", "when", "where", "who",
   "can", "could", "would", "should", "does", "do", "is"]

/-- Embeds `IsQuestion.check` (U1). Interpolated data in rationale strings is
elided throughout this embedding. -/
def isQuestionCheck (d : QuestionData) : ConstraintResult :=
  let res := mkResult "U1" "is_question" "universal"
  let text := stripWs d.question.data
  if text.isEmpty then res false 0 "Empty question"
  else if text.getLast? == some '?' then res true 1 "Ends with question mark"
  else
    let textLower := text.map Char.toLower
    if TASK_STARTERS.any (fun s => s.data.isPrefixOf textLower) then
      res true (8 / 10) "Task prompt starter"
    else if RESPONSE_ENDINGS.any (fun e => e.data.isSuffixOf (rstripDots textLower)) then
      res true (7 / 10) "Response-request ending"
    else if QUESTION_WORDS.any (fun qw => wordRegexMatch qw.data textLower) then
      res true (6 / 10) "Contains question word"
    else res false 0 "No task or question structure found"

/-- Embeds `WordCount.check` (U2). -/
def wordCountCheck (d : QuestionData) : ConstraintResult :=
  let res := mkResult "U2" "word_count" "universal"
  let n_words := d.question_words.length
  let min_words := if d.target_level == 1 then 5 else U_MIN_WORDS
  if n_words < min_words then
    res false ((n_words : ℚ) / (min_words : ℚ)) "Too short"
  else if U_MAX_WORDS < n_words then
    res false ((U_MAX_WORDS : ℚ) / (n_words : ℚ)) "Too long"
  else res true 1 "Words in valid range"

/-- Embeds `PassageRelevance._concept_match`: word-boundary regex with optional
inflection, or stem-subset fallback. -/
def conceptMatchU3 (c : String) (textLower : List Char) (textStems : List (List Char)) : Bool :=
  let cl := lowerChars c
  if conceptRegexMatch cl textLower then true
  else
    let cTokens := alphaTokens cl
    if cTokens.isEmpty then false
    else (cTokens.map (fun w => stem1 w)).all (fun s => s ∈ textStems)

/-- Embeds `PassageRelevance.check` (U3). -/
def passageRelevanceCheck (d : QuestionData) : ConstraintResult :=
  let res := mkResult "U3" "passage_relevance" "universal"
  if d.key_concepts.isEmpty then res true 1 "No key concepts provided; skipped"
  else
    let combinedLower := d.qlower ++ [' '] ++ d.alower
    let combinedStems := ((alphaTokens combinedLower).map (fun w => stem1 w)).dedup
    let found := d.key_concepts.filter
      (fun c => conceptMatchU3 c combinedLower combinedStems)
    let n_found := found.length
    let min_terms := if d.target_level == 1 then 1 else U_MIN_PASSAGE_TERMS
    let passed := min_terms ≤ n_found
    let score := min ((n_found : ℚ) / (min_terms : ℚ)) 1
    if passed then res true score "Enough key terms in Q and A"
    else res false score "Too few key terms in Q and A"

def U4_STOP_WORDS : List String :=
  ["the", "a", "an", "is", "are", "was", "were", "of", "in",
   "to", "and", "or", "for", "on", "at", "by", "with", "that",
   "this", "it", "from", "as", "be", "has", "have", "had",
   "not", "but", "what", "how", "do", "does", "did", "can",
   "if", "which", "their", "its", "they", "you", "your"]

/-- Highest multiplicity among the elements of a word list
(`Counter(...).most_common(1)[0][1]`). -/
def maxRepeat (ws : List (List Char)) : Nat :=
  (ws.dedup.map (fun w => ws.count w)).foldr max 0

/-- Embeds `NoDegenerateOutput.check` (U4). -/
def noDegenerateCheck (d : QuestionData) : ConstraintResult :=
  let res := mkResult "U4" "no_degenerate" "universal"
  let text := stripWs d.question.data
  if text.isEmpty then res false 0 "Empty output"
  else if text.length < 5 then res false 0 "Output too short"
  else
    let content_words := d.question_words.filter
      (fun w => !(U4_STOP_WORDS.any (fun s => s.data == w)))
    if content_words.isEmpty then res true 1 "No degenerate patterns detected"
    else
      let most_common_count := maxRepeat content_words
      if U_MAX_WORD_REPEAT < most_common_count then
        res false ((U_MAX_WORD_REPEAT : ℚ) / (most_common_count : ℚ))
          "Word repeated too many times"
      else res true 1 "No degenerate patterns detected"

def IsQuestion : Constraint :=
  ⟨"U1", "is_question", "universal", fun d => .ok (isQuestionCheck d)⟩

def WordCount : Constraint :=
  ⟨"U2", "word_count", "universal", fun d => .ok (wordCountCheck d)⟩

def PassageRelevance : Constraint :=
  ⟨"U3", "passage_relevance", "universal", fun d => .ok (passageRelevanceCheck d)⟩

def NoDegenerateOutput : Constraint :=
  ⟨"U4", "no_degenerate", "universal", fun d => .ok (noDegenerateCheck d)⟩

/-- Embeds `UNIVERSAL_CONSTRAINTS` from `constraints/universal.py`. -/
def UNIVERSAL_CONSTRAINTS : List Constraint :=
  [IsQuestion, WordCount, PassageRelevance, NoDegenerateOutput]

/-! ## Structural constraints, levels 1 to 3 (`constraints/structural.py`) -/

def RECALL_PATTERNS : List String :=
  ["what is", "what are", "what was", "what were", "what does", "what do",
   "what did", "what type", "what kind", "what form", "what part",
   "what vitamin", "what molecule", "what organ", "what structure",
   "what process", "what function", "what role", "what term",
   "what class", "what group", "what phylum", "what percentage",
   "what number", "what year", "what region", "what stage",
   "how many", "how much", "how long", "how old",
   "when did", "when does", "when was", "when is", "when were",
   "where is", "where are", "where does", "where do", "where did",
   "who is", "who was", "who are", "who did", "who discovered",
   "which is", "which are", "which was", "which of", "which type"]

/-- Embeds `RememberVocabulary.check` (R1). -/
def rememberVocabularyCheck (d : QuestionData) : ConstraintResult :=
  let res := mkResult "R1" "remember_vocabulary" "structural"
  if contains_any d.qlower (BLOOM_VERBS 1) then
    res true 1 "Contains Remember verb"
  else if contains_any d.qlower RECALL_PATTERNS then
    res true (9 / 10) "Contains recall pattern"
  else res false 0 "No Remember verbs or recall patterns found"

/-- Embeds `RememberSingleConcept._deduplicate_concepts`: drop any found concept
that is a strict substring (after lowering) of another found concept. -/
def deduplicateConcepts (found : List String) : List String :=
  found.filter (fun c =>
    !(found.any (fun other => c ≠ other && listContains (lowerChars c) (lowerChars other))))

/-- The class constant `RememberSingleConcept.MAX_CONCEPTS`. -/
def R2_MAX_CONCEPTS : Nat := 2

/-- Embeds `RememberSingleConcept.check` (R2). -/
def rememberSingleConceptCheck (d : QuestionData) : ConstraintResult :=
  let res := mkResult "R2" "single_concept" "structural"
  if d.key_concepts.isEmpty then res true 1 "No key concepts provided; skipped"
  else
    let found := deduplicateConcepts (find_concepts_in_text d.qlower d.key_concepts)
    let n := found.length
    if n ≤ R2_MAX_CONCEPTS then res true 1 "Concept count within limit"
    else res false ((R2_MAX_CONCEPTS : ℚ) / (n : ℚ)) "Too many concepts found"

/-- Embeds `RememberShortAnswer.check` (R3). -/
def rememberShortAnswerCheck (d : QuestionData) : ConstraintResult :=
  let res := mkResult "R3" "short_answer" "structural"
  let n_words := d.answer_words.length
  if n_words ≤ R_MAX_ANSWER_WORDS then res true 1 "Answer is short enough"
  else res false ((R_MAX_ANSWER_WORDS : ℚ) / (n_words : ℚ)) "Answer too long"

def R4_STOP_WORDS : List String :=
  ["the", "a", "an", "is", "are", "was", "were", "of", "in",
   "to", "and", "or", "for", "on", "at", "by", "with", "it"]

/-- Embeds `RememberExtractable.check` (R4). -/
def rememberExtractableCheck (d : QuestionData) : ConstraintResult :=
  let res := mkResult "R4" "answer_extractable" "structural"
  let answer_content := d.answer_words.filter
    (fun w => !(R4_STOP_WORDS.any (fun s => s.data == w)))
  if answer_content.isEmpty then res true 1 "No content words in answer; skipped"
  else
    let overlap := word_overlap answer_content d.passage_words
    if R_PASSAGE_OVERLAP ≤ overlap then
      res true overlap "Enough answer words found in passage"
    else res false overlap "Too few answer words found in passage"

def UNDERSTAND_PATTERNS : List String :=
  ["why is", "why are", "why does", "why do", "why did", "why was",
   "why were", "why would", "why can", "why might",
   "how does", "how do", "how is", "how are", "how did", "how was",
   "how can", "how would", "how might",
   "what is the difference", "what is the purpose", "what is the role",
   "what is the function", "what is the significance", "what is the meaning",
   "what is the relationship", "what is the importance",
   "what happens when", "what happens if", "what would happen",
   "what is the effect", "what is the impact", "what is the result",
   "in what way", "in your own words",
   "what does it mean", "what do you understand",
   "given that", "considering that"]

/-- Embeds `UnderstandVocabulary.check` (D1). -/
def understandVocabularyCheck (d : QuestionData) : ConstraintResult :=
  let res := mkResult "D1" "understand_vocabulary" "structural"
  if contains_any d.qlower (BLOOM_VERBS 2) then
    res true 1 "Contains Understand verb"
  else if contains_any d.qlower UNDERSTAND_PATTERNS then
    res true (9 / 10) "Contains comprehension pattern"
  else res false 0 "No Understand verbs or comprehension patterns found"

/-- Length-3 sliding windows of a word list (the `n`-gram sets of
`UnderstandNotCopied._ngram_overlap` with `n = 3`). -/
def trigrams (ws : List (List Char)) : List (List (List Char)) :=
  (List.range (ws.length + 1 - 3)).map (fun i => (ws.drop i).take 3)

/-- Embeds `UnderstandNotCopied._ngram_overlap(answer_words, passage_words, 3)`. -/
def ngram_overlap (answer_words passage_words : List (List Char)) : ℚ :=
  if answer_words.length < 3 then 0
  else
    let answer_ngrams := (trigrams answer_words).dedup
    if answer_ngrams.isEmpty then 0
    else
      let passage_ngrams := (trigrams passage_words).dedup
      ((answer_ngrams.filter (fun g => g ∈ passage_ngrams)).length : ℚ) /
        (answer_ngrams.length : ℚ)

/-- Embeds `UnderstandNotCopied.check` (D2). -/
def understandNotCopiedCheck (d : QuestionData) : ConstraintResult :=
  let res := mkResult "D2" "answer_not_copied" "structural"
  if d.answer_words.length < 5 then
    res true 1 "Answer too short to evaluate; skipped"
  else
    let trigram_overlap := ngram_overlap d.answer_words d.passage_words
    if trigram_overlap < D_MAX_PASSAGE_OVERLAP then
      res true (1 - trigram_overlap) "Answer is paraphrased"
    else res false (1 - trigram_overlap) "Answer copies the passage"

def MEANING_MARKERS : List String :=
  ["how", "why", "explain", "describe", "what does", "what do",
   "in your own words", "in what way", "meaning of"]

/-- Embeds `UnderstandMeaning.check` (D4). -/
def understandMeaningCheck (d : QuestionData) : ConstraintResult :=
  let res := mkResult "D4" "asks_meaning" "structural"
  if contains_any d.qlower MEANING_MARKERS then
    res true 1 "Contains meaning marker"
  else res false 0 "No meaning markers found"

def APPLY_PATTERNS : List String :=
  ["if a ", "if an ", "if the ", "if you ", "if we ",
   "given that", "given a ", "given an ", "given the ",
   "suppose ", "assuming ", "consider a ", "consider the ",
   "imagine ", "say that ",
   "how would you", "how could you", "how can you",
   "what would happen if", "what would be the result",
   "what steps", "what procedure", "what method",
   "a researcher", "a student", "a scientist", "an engineer",
   "a patient", "a doctor",
   "find the", "predict the", "estimate the",
   "what is the value", "what would the"]

/-- Embeds `ApplyVocabulary.check` (P1). -/
def applyVocabularyCheck (d : QuestionData) : ConstraintResult :=
  let res := mkResult "P1" "apply_vocabulary" "structural"
  if contains_any d.qlower (BLOOM_VERBS 3) then
    res true 1 "Contains Apply verb"
  else if contains_any d.qlower APPLY_PATTERNS then
    res true (9 / 10) "Contains application pattern"
  else res false 0 "No Apply verbs or application patterns found"

/-- Embeds `ApplyMethodReference.check` (P3). -/
def applyMethodReferenceCheck (d : QuestionData) : ConstraintResult :=
  let res := mkResult "P3" "method_reference" "structural"
  let combinedLower := d.qlower ++ [' '] ++ d.alower
  let conceptHit := !d.key_concepts.isEmpty &&
    !(find_concepts_in_text combinedLower d.key_concepts).isEmpty
  if conceptHit then res true 1 "References passage concept"
  else
    let good_methods := d.methods_principles.filter
      (fun m => decide ((wsTokens m.data).length ≤ 5) && decide (3 < m.data.length))
    let methodHit := !d.methods_principles.isEmpty && !good_methods.isEmpty &&
      !(find_concepts_in_text combinedLower good_methods).isEmpty
    if methodHit then res true 1 "References method or principle"
    else
      let overlapHit := !d.passage_words.isEmpty &&
        decide ((20 : ℚ) / 100 ≤ word_overlap (alphaTokens combinedLower) d.passage_words)
      if overlapHit then res true (8 / 10) "Q and A share vocabulary with passage"
      else if d.key_concepts.isEmpty && d.methods_principles.isEmpty then
        res true 1 "No concepts or methods provided; skipped"
      else res false 0 "Q and A do not reference passage concepts or methods"

/-- Elements of the simple regexes in `ApplySpecificResult.RESULT_PATTERNS`:
a literal, one whitespace class repetition, or one digit. -/
inductive PatElem where
  | lit (s : String)
  | spaces0
  | spaces1
  | digit

/-- Suffixes of `t` reachable by skipping zero or more leading whitespace
characters (the backtracking choices of a leading `\s*`). -/
def spaceSuffixes (t : List Char) : List (List Char) :=
  t :: (match t with
        | c :: t2 => if c.isWhitespace then spaceSuffixes t2 else []
        | [] => [])

/-- Match a pattern-element sequence at the start of `t`. -/
def matchElems : List PatElem → List Char → Bool
  | [], _ => true
  | .lit s :: ps, t => s.data.isPrefixOf t && matchElems ps (t.drop s.data.length)
  | .digit :: ps, t =>
    (match t with
     | c :: t2 => c.isDigit && matchElems ps t2
     | [] => false)
  | .spaces0 :: ps, t => (spaceSuffixes t).any (fun r => matchElems ps r)
  | .spaces1 :: ps, t =>
    (match t with
     | c :: t2 => c.isWhitespace && (spaceSuffixes t2).any (fun r => matchElems ps r)
     | [] => false)

/-- Embeds `re.search` truthiness for an alternation of element sequences. -/
def searchAlts (alts : List (List PatElem)) (t : List Char) : Bool :=
  t.tails.any (fun suffixPart => alts.any (fun p => matchElems p suffixPart))

/-- Embeds `RESULT_PATTERNS` of `ApplySpecificResult`, each regex expanded into its
alternatives (an optional trailing `s?` is dropped: searching for the stem
literal is equivalent). -/
def RESULT_PATTERNS : List (List (List PatElem)) :=
  [ [[.digit]],
    [[.lit "step", .spaces0, .digit]],
    [[.lit "first"], [.lit "second"], [.lit "third"], [.lit "finally"]],
    [[.lit "result"], [.lit "outcome"], [.lit "solution"], [.lit "output"]],
    [[.lit "therefore"], [.lit "thus"], [.lit "hence"], [.lit "consequently"]],
    [[.lit "equal"], [.lit "yield"], [.lit "produce"], [.lit "give"]],
    [[.lit "because"], [.lit "since"], [.lit "due to"], [.lit "as a result"]],
    [[.lit "would", .spaces1, .lit "be"], [.lit "would", .spaces1, .lit "cause"],
     [.lit "would", .spaces1, .lit "lead"], [.lit "would", .spaces1, .lit "result"],
     [.lit "would", .spaces1, .lit "produce"], [.lit "would", .spaces1, .lit "increase"],
     [.lit "would", .spaces1, .lit "decrease"]],
    [[.lit "this", .spaces1, .lit "means"], [.lit "this", .spaces1, .lit "indicates"],
     [.lit "this", .spaces1, .lit "suggests"], [.lit "this", .spaces1, .lit "shows"],
     [.lit "this", .spaces1, .lit "leads"], [.lit "this", .spaces1, .lit "causes"],
     [.lit "this", .spaces1, .lit "results"]],
    [[.lit "the", .spaces1, .lit "answer", .spaces1, .lit "is"],
     [.lit "the", .spaces1, .lit "solution", .spaces1, .lit "is"],
     [.lit "the", .spaces1, .lit "result", .spaces1, .lit "is"],
     [.lit "the", .spaces1, .lit "value", .spaces1, .lit "is"],
     [.lit "the", .spaces1, .lit "effect", .spaces1, .lit "is"],
     [.lit "the", .spaces1, .lit "consequence", .spaces1, .lit "is"]],
    [[.lit "in", .spaces1, .lit "this", .spaces1, .lit "case"],
     [.lit "in", .spaces1, .lit "this", .spaces1, .lit "scenario"],
     [.lit "in", .spaces1, .lit "this", .spaces1, .lit "situation"]],
    [[.lit "by", .spaces1, .lit "using"], [.lit "by", .spaces1, .lit "applying"],
     [.lit "by", .spaces1, .lit "following"], [.lit "by", .spaces1, .lit "performing"]] ]

/-- Embeds `ApplySpecificResult.check` (P4). -/
def applySpecificResultCheck (d : QuestionData) : ConstraintResult :=
  let res := mkResult "P4" "specific_result" "structural"
  if RESULT_PATTERNS.any (fun alts => searchAlts alts d.alower) then
    res true 1 "Answer contains specific result"
  else res false 0 "Answer lacks specific result"

/-! ## Structural constraints, levels 4 to 6 -/

def ANALYZE_PATTERNS : List String :=
  ["how do", "how does", "how is", "how are",
   "what is the relationship", "what is the connection",
   "what is the difference", "what are the differences",
   "what is the similarity", "what are the similarities",
   "in what way", "in what ways",
   "what role does", "what role do",
   "how do they differ", "how does it differ",
   "differ from", "different from", "differs from",
   "similar to", "compared to", "in comparison",
   "what factors", "what causes", "what contributes",
   "why does", "why do", "why is", "why are",
   "the relationship between", "the connection between",
   "the difference between", "the similarities between"]

/-- Embeds `AnalyzeVocabulary.check` (A1). -/
def analyzeVocabularyCheck (d : QuestionData) : ConstraintResult :=
  let res := mkResult "A1" "analyze_vocabulary" "structural"
  if contains_any d.qlower (BLOOM_VERBS 4) then
    res true 1 "Contains Analyze verb"
  else if contains_any d.qlower ANALYZE_PATTERNS then
    res true (9 / 10) "Contains analytical pattern"
  else res false 0 "No Analyze verbs or analytical patterns found"

/-- Embeds `AnalyzeMultipleConcepts.ACRONYM_MAP`, in insertion order. -/
def ACRONYM_MAP : List (String × String) :=
  [("rer", "rough endoplasmic reticulum"),
   ("ser", "smooth endoplasmic reticulum"),
   ("er", "endoplasmic reticulum"),
   ("dna", "deoxyribonucleic acid"),
   ("rna", "ribonucleic acid"),
   ("mrna", "messenger rna"),
   ("trna", "transfer rna"),
   ("atp", "adenosine triphosphate"),
   ("adp", "adenosine diphosphate"),
   ("nadh", "nicotinamide adenine dinucleotide"),
   ("gdp", "gross domestic product"),
   ("cns", "central nervous system"),
   ("pns", "peripheral nervous system")]

/-- Embeds `AnalyzeMultipleConcepts._find_with_acronyms`. -/
def findWithAcronyms (textLower : List Char) (concepts : List String) : List String :=
  let found0 := find_concepts_in_text textLower concepts
  ACRONYM_MAP.foldl (fun found p =>
    if wordRegexMatch p.1.data textLower then
      concepts.foldl (fun fnd c =>
        if (fnd.map lowerChars).contains (lowerChars c) then fnd
        else if listContains p.1.data (lowerChars c) ||
                listContains (lowerChars c) p.2.data ||
                listContains p.2.data (lowerChars c) then fnd ++ [c]
        else fnd) found
    else found) found0

/-- Embeds `AnalyzeMultipleConcepts.check` (A2). -/
def analyzeMultipleConceptsCheck (d : QuestionData) : ConstraintResult :=
  let res := mkResult "A2" "multiple_concepts" "structural"
  if d.key_concepts.isEmpty then res true 1 "No key concepts provided; skipped"
  else
    let combinedLower := d.qlower ++ [' '] ++ d.alower
    let found := findWithAcronyms combinedLower d.key_concepts
    let deduped := deduplicateConcepts found
    let found2 := if deduped.isEmpty then found else deduped
    let n := found2.length
    let passed := A_MIN_CONCEPTS ≤ n
    let score := min ((n : ℚ) / (A_MIN_CONCEPTS : ℚ)) 1
    if passed then res true score "Enough concepts found"
    else res false score "Too few concepts found"

def RELATIONSHIP_MARKERS : List String :=
  ["between", "differ", "relate", "compare", "versus", "whereas",
   "how does", "affect", "influence", "impact", "connection",
   "relationship", "similarity", "difference", "in contrast",
   "as opposed to", "while", "on the other hand"]

/-- Embeds `AnalyzeRelationship.check` (A3). -/
def analyzeRelationshipCheck (d : QuestionData) : ConstraintResult :=
  let res := mkResult "A3" "asks_relationship" "structural"
  if contains_any d.qlower RELATIONSHIP_MARKERS then
    res true 1 "Contains relationship marker"
  else res false 0 "No relationship markers found"

/-- Embeds `AnalyzeAnswerCoverage.check` (A4). -/
def analyzeAnswerCoverageCheck (d : QuestionData) : ConstraintResult :=
  let res := mkResult "A4" "answer_coverage" "structural"
  if d.key_concepts.isEmpty then res true 1 "No key concepts provided; skipped"
  else
    let q_concepts := find_concepts_in_text d.qlower d.key_concepts
    if q_concepts.isEmpty then res true 1 "No passage concepts in question; skipped"
    else
      let a_concepts := find_concepts_in_text d.alower q_concepts
      let missing := q_concepts.filter (fun c => c ∉ a_concepts)
      let coverage := (a_concepts.length : ℚ) / (q_concepts.length : ℚ)
      if missing.isEmpty then res true coverage "Answer covers all concepts"
      else res false coverage "Answer missing concepts"

/-- Embeds `EvaluateVocabulary.check` (E1). -/
def evaluateVocabularyCheck (d : QuestionData) : ConstraintResult :=
  let res := mkResult "E1" "evaluate_vocabulary" "structural"
  if contains_any d.qlower (BLOOM_VERBS 5) then
    res true 1 "Contains Evaluate verb"
  else res false 0 "No Evaluate verbs found"

def CLAIM_MARKERS : List String :=
  ["do you agree", "to what extent", "is it justified", "is it true",
   "is it valid", "would you recommend", "is it appropriate",
   "argue for or against", "defend or refute", "is it reasonable",
   "critique", "evaluate the claim", "evaluate this claim",
   "assess whether", "some argue", "the claim",
   "it has been claimed", "one could argue", "is it fair to say",
   "claims that", "it is claimed", "the argument",
   "should ", "should be", "should not",
   "could be considered", "can be considered",
   "would it be", "is it possible that",
   "is it accurate", "is it correct", "is it fair",
   "justify your", "justify this", "provide reasons",
   "give reasons", "support your",
   "provide evidence", "provide your reasoning",
   "strengths and weaknesses", "strengths and limitations",
   "advantages and disadvantages", "pros and cons",
   "how effective", "how appropriate", "how adequate",
   "how justified", "how significant", "how valid",
   "how important", "how well does", "how successful",
   "is there sufficient", "is there enough evidence",
   "what are the limitations", "what are the drawbacks",
   "what are the implications", "what are the consequences",
   "evaluate whether", "evaluate how", "evaluate the",
   "critically assess", "critically evaluate", "critically analyze",
   "weigh the", "judge the", "merit of",
   "your position", "your stance", "your opinion",
   "your argument", "your view",
   "take a position", "take a stance"]

/-- Embeds `EvaluateClaim.check` (E2). -/
def evaluateClaimCheck (d : QuestionData) : ConstraintResult :=
  let res := mkResult "E2" "presents_claim" "structural"
  if contains_any d.qlower CLAIM_MARKERS then
    res true 1 "Contains claim or judgment prompt"
  else res false 0 "No claim or judgment markers found"

def EVIDENCE_MARKERS : List String :=
  ["based on", "evidence", "criteria", "justify", "support",
   "why or why not", "provide reasons", "give evidence",
   "what evidence", "using examples", "with reference to"]

/-- Embeds `EvaluateEvidenceRequest.check` (E3). -/
def evaluateEvidenceRequestCheck (d : QuestionData) : ConstraintResult :=
  let res := mkResult "E3" "evidence_request" "structural"
  if contains_any d.qlower EVIDENCE_MARKERS then
    res true 1 "Contains evidence request"
  else res false 0 "No evidence markers found"

def CONTRASTIVE_MARKERS : List String :=
  ["however", "although", "on the other hand", "nevertheless",
   "conversely", "in contrast", "despite", "whereas",
   "notwithstanding", "on the contrary", "nonetheless",
   "but ", "yet ", "while ",
   "therefore", "thus", "hence", "consequently",
   "because", "since ", "as a result",
   "this suggests", "this indicates", "this shows",
   "the evidence", "the data",
   "more effective", "less effective", "better", "worse",
   "stronger", "weaker", "superior", "inferior",
   "significant", "insufficient", "adequate", "inadequate",
   "valid", "invalid", "justified", "unjustified",
   "on one hand", "first,", "second,", "finally,",
   "in conclusion", "overall", "in summary",
   "the strength", "the weakness", "the limitation",
   "the advantage", "the disadvantage"]

/-- Embeds `EvaluateArgumentation.check` (E4); scans the answer, not the question. -/
def evaluateArgumentationCheck (d : QuestionData) : ConstraintResult :=
  let res := mkResult "E4" "answer_argumentation" "structural"
  if contains_any d.alower CONTRASTIVE_MARKERS then
    res true 1 "Answer contains contrastive marker"
  else res false 0 "Answer lacks contrastive markers"

/-- Embeds `CreateVocabulary.check` (C1). -/
def createVocabularyCheck (d : QuestionData) : ConstraintResult :=
  let res := mkResult "C1" "create_vocabulary" "structural"
  if contains_any d.qlower (BLOOM_VERBS 6) then
    res true 1 "Contains Create verb"
  else res false 0 "No Create verbs found"

def SPEC_MARKERS : List String :=
  ["must", "should", "include", "at least", "using",
   "ensure", "incorporate", "consider", "address", "that includes",
   "consisting of", "requirements", "criteria"]

/-- Embeds `CreateSpecifications.check` (C3). -/
def createSpecificationsCheck (d : QuestionData) : ConstraintResult :=
  let res := mkResult "C3" "specifications" "structural"
  let found := SPEC_MARKERS.filter (fun m => listContains m.data d.qlower)
  let n := found.length
  let passed := C_MIN_SPEC_MARKERS ≤ n
  let score := min ((n : ℚ) / (C_MIN_SPEC_MARKERS : ℚ)) 1
  if passed then res true score "Enough specification markers found"
  else res false score "Too few specification markers"

/-- Embeds `CreateSubstantialAnswer.check` (C4). -/
def createSubstantialAnswerCheck (d : QuestionData) : ConstraintResult :=
  let res := mkResult "C4" "substantial_answer" "structural"
  let n_words := d.answer_words.length
  let passed := C_MIN_ANSWER_WORDS < n_words
  let score := min ((n_words : ℚ) / (C_MIN_ANSWER_WORDS : ℚ)) 1
  if passed then res true score "Answer is substantial"
  else res false score "Answer too short to be substantial"

def RememberVocabulary : Constraint :=
  ⟨"R1", "remember_vocabulary", "structural", fun d => .ok (rememberVocabularyCheck d)⟩
def RememberSingleConcept : Constraint :=
  ⟨"R2", "single_concept", "structural", fun d => .ok (rememberSingleConceptCheck d)⟩
def RememberShortAnswer : Constraint :=
  ⟨"R3", "short_answer", "structural", fun d => .ok (rememberShortAnswerCheck d)⟩
def RememberExtractable : Constraint :=
  ⟨"R4", "answer_extractable", "structural", fun d => .ok (rememberExtractableCheck d)⟩
def UnderstandVocabulary : Constraint :=
  ⟨"D1", "understand_vocabulary", "structural", fun d => .ok (understandVocabularyCheck d)⟩
def UnderstandNotCopied : Constraint :=
  ⟨"D2", "answer_not_copied", "structural", fun d => .ok (understandNotCopiedCheck d)⟩
def UnderstandMeaning : Constraint :=
  ⟨"D4", "asks_meaning", "structural", fun d => .ok (understandMeaningCheck d)⟩
def ApplyVocabulary : Constraint :=
  ⟨"P1", "apply_vocabulary", "structural", fun d => .ok (applyVocabularyCheck d)⟩
def ApplyMethodReference : Constraint :=
  ⟨"P3", "method_reference", "structural", fun d => .ok (applyMethodReferenceCheck d)⟩
def ApplySpecificResult : Constraint :=
  ⟨"P4", "specific_result", "structural", fun d => .ok (applySpecificResultCheck d)⟩
def AnalyzeVocabulary : Constraint :=
  ⟨"A1", "analyze_vocabulary", "structural", fun d => .ok (analyzeVocabularyCheck d)⟩
def AnalyzeMultipleConcepts : Constraint :=
  ⟨"A2", "multiple_concepts", "structural", fun d => .ok (analyzeMultipleConceptsCheck d)⟩
def AnalyzeRelationship : Constraint :=
  ⟨"A3", "asks_relationship", "structural", fun d => .ok (analyzeRelationshipCheck d)⟩
def AnalyzeAnswerCoverage : Constraint :=
  ⟨"A4", "answer_coverage", "structural", fun d => .ok (analyzeAnswerCoverageCheck d)⟩
def EvaluateVocabulary : Constraint :=
  ⟨"E1", "evaluate_vocabulary", "structural", fun d => .ok (evaluateVocabularyCheck d)⟩
def EvaluateClaim : Constraint :=
  ⟨"E2", "presents_claim", "structural", fun d => .ok (evaluateClaimCheck d)⟩
def EvaluateEvidenceRequest : Constraint :=
  ⟨"E3", "evidence_request", "structural", fun d => .ok (evaluateEvidenceRequestCheck d)⟩
def EvaluateArgumentation : Constraint :=
  ⟨"E4", "answer_argumentation", "structural", fun d => .ok (evaluateArgumentationCheck d)⟩
def CreateVocabulary : Constraint :=
  ⟨"C1", "create_vocabulary", "structural", fun d => .ok (createVocabularyCheck d)⟩
def CreateSpecifications : Constraint :=
  ⟨"C3", "specifications", "structural", fun d => .ok (createSpecificationsCheck d)⟩
def CreateSubstantialAnswer : Constraint :=
  ⟨"C4", "substantial_answer", "structural", fun d => .ok (createSubstantialAnswerCheck d)⟩

def REMEMBER_CONSTRAINTS : List Constraint :=
  [RememberVocabulary, RememberSingleConcept, RememberShortAnswer, RememberExtractable]
def UNDERSTAND_CONSTRAINTS : List Constraint :=
  [UnderstandVocabulary, UnderstandNotCopied, UnderstandMeaning]
def APPLY_CONSTRAINTS : List Constraint :=
  [ApplyVocabulary, ApplyMethodReference, ApplySpecificResult]
def ANALYZE_CONSTRAINTS : List Constraint :=
  [AnalyzeVocabulary, AnalyzeMultipleConcepts, AnalyzeRelationship, AnalyzeAnswerCoverage]
def EVALUATE_CONSTRAINTS : List Constraint :=
  [EvaluateVocabulary, EvaluateClaim, EvaluateEvidenceRequest, EvaluateArgumentation]
def CREATE_CONSTRAINTS : List Constraint :=
  [CreateVocabulary, CreateSpecifications, CreateSubstantialAnswer]

/-! ## Semantic constraints (`constraints/semantic.py`)

The pretrained NLI classifier is external to this repository, so it is an
abstract parameter: a function from (premise, hypothesis) to either an
error (a raised exception inside `nli_predict`) or a record of label
probabilities, each `Option` because `nli_predict` only fills the labels
the model metadata names. -/

structure NliScores where
  entailment : Option ℚ := none
  neutral : Option ℚ := none
  contradiction : Option ℚ := none

/-- The type of the NLI backend `nli_predict`. -/
def NliFn : Type := String → String → Except String NliScores

/-- Facts guaranteed by a softmax over the label set, used to bound the
semantic scores: the contradiction probability (defaulting to 1 when the
label is missing) lies in `[0,1]`, and the reported non-entailment mass is
nonnegative and at most 1. -/
def WellFormedNli (nli : NliFn) : Prop :=
  ∀ p h s, nli p h = .ok s →
    (0 ≤ s.contradiction.getD 1 ∧ s.contradiction.getD 1 ≤ 1) ∧
    (0 ≤ s.neutral.getD 0 ∧ 0 ≤ s.contradiction.getD 0 ∧
      s.neutral.getD 0 + s.contradiction.getD 0 ≤ 1)

/-- Embeds `" ".join(data.passage.split()[:400])`: the ~400-word truncation fed to
the NLI model. -/
def truncate400 (s : String) : String :=
  String.mk (List.intercalate [' '] ((wsTokens s.data).take 400))

/-- Embeds `UnderstandSupported.check` (D3); CONTRADICTION_THRESHOLD is 0.50. -/
def understandSupportedCheck (nli : NliFn) (d : QuestionData) : ConstraintResult :=
  let res := mkResult "D3" "answer_supported" "semantic"
  if d.passage.isEmpty || d.answer.isEmpty then
    res true 1 "Missing passage or answer; skipped"
  else
    match nli (truncate400 d.passage) d.answer with
    | .error _ => res false 0 "NLI error"
    | .ok scores =>
      let contradiction := scores.contradiction.getD 1
      if contradiction < 1 / 2 then
        res true (1 - contradiction) "Answer consistent with passage"
      else res false (1 - contradiction) "Answer contradicts passage"

/-- Embeds `ApplyNewScenario.check` (P2). -/
def applyNewScenarioCheck (nli : NliFn) (d : QuestionData) : ConstraintResult :=
  let res := mkResult "P2" "new_scenario" "semantic"
  if d.passage.isEmpty || d.question.isEmpty then
    res true 1 "Missing passage or question; skipped"
  else
    match nli (truncate400 d.passage) d.question with
    | .error _ => res false 0 "NLI error"
    | .ok scores =>
      let non_entailment := scores.neutral.getD 0 + scores.contradiction.getD 0
      if NLI_NOVELTY_THRESHOLD ≤ non_entailment then
        res true non_entailment "Question presents novel scenario"
      else res false non_entailment "Scenario too similar to passage"

/-- Embeds `CreateNovel.check` (C2); its NOVELTY_THRESHOLD is 0.60. -/
def createNovelCheck (nli : NliFn) (d : QuestionData) : ConstraintResult :=
  let res := mkResult "C2" "novel_creation" "semantic"
  if d.passage.isEmpty || d.answer.isEmpty then
    res true 1 "Missing passage or answer; skipped"
  else
    match nli (truncate400 d.passage) d.answer with
    | .error _ => res false 0 "NLI error"
    | .ok scores =>
      let non_entailment := scores.neutral.getD 0 + scores.contradiction.getD 0
      if 60 / 100 ≤ non_entailment then
        res true non_entailment "Answer is novel"
      else res false non_entailment "Answer too similar to passage"

def UnderstandSupported (nli : NliFn) : Constraint :=
  ⟨"D3", "answer_supported", "semantic", fun d => .ok (understandSupportedCheck nli d)⟩
def ApplyNewScenario (nli : NliFn) : Constraint :=
  ⟨"P2", "new_scenario", "semantic", fun d => .ok (applyNewScenarioCheck nli d)⟩
def CreateNovel (nli : NliFn) : Constraint :=
  ⟨"C2", "novel_creation", "semantic", fun d => .ok (createNovelCheck nli d)⟩

/-! ## Adversarial constraints (`constraints/adversarial.py`) -/

/-- Embeds `AdversarialVocabulary.check` (AV). -/
def adversarialVocabularyCheck (d : QuestionData) : ConstraintResult :=
  let res := mkResult "AV" "adversarial_vocabulary" "adversarial"
  if d.mode ≠ "adversarial" || d.vocab_level.isNone then
    res true 1 "Not adversarial mode; skipped"
  else
    let vocab_verbs := BLOOM_VERBS (d.vocab_level.getD 0)
    if vocab_verbs.isEmpty then res true 1 "No verbs defined for level; skipped"
    else if contains_any d.qlower vocab_verbs then
      res true 1 "Uses vocabulary from the specified level"
    else res false 0 "Does not use vocabulary from the specified level"

/-- Embeds `AdversarialNoTargetVocab.check` (AN). -/
def adversarialNoTargetVocabCheck (d : QuestionData) : ConstraintResult :=
  let res := mkResult "AN" "no_target_vocabulary" "adversarial"
  if d.mode ≠ "adversarial" then res true 1 "Not adversarial mode; skipped"
  else
    let target_verbs := BLOOM_VERBS d.target_level
    if target_verbs.isEmpty then
      res true 1 "No verbs defined for target level; skipped"
    else if contains_any d.qlower target_verbs then
      res false (1 / 2) "Uses target-level vocabulary"
    else res true 1 "Avoids target-level vocabulary"

def AdversarialVocabulary : Constraint :=
  ⟨"AV", "adversarial_vocabulary", "adversarial",
   fun d => .ok (adversarialVocabularyCheck d)⟩
def AdversarialNoTargetVocab : Constraint :=
  ⟨"AN", "no_target_vocabulary", "adversarial",
   fun d => .ok (adversarialNoTargetVocabCheck d)⟩

def ADVERSARIAL_CONSTRAINTS : List Constraint :=
  [AdversarialVocabulary, AdversarialNoTargetVocab]

/-! ## Registry (`constraints/registry.py`) -/

/-- Embeds `LEVEL_CONSTRAINTS`, as a total map defaulting to `[]`
(`LEVEL_CONSTRAINTS.get(level, [])`). -/
def LEVEL_CONSTRAINTS (nli : NliFn) : Nat → List Constraint
  | 1 => REMEMBER_CONSTRAINTS
  | 2 => UNDERSTAND_CONSTRAINTS ++ [UnderstandSupported nli]
  | 3 => APPLY_CONSTRAINTS ++ [ApplyNewScenario nli]
  | 4 => ANALYZE_CONSTRAINTS
  | 5 => EVALUATE_CONSTRAINTS
  | 6 => CREATE_CONSTRAINTS ++ [CreateNovel nli]
  | _ => []

/-- Embeds `get_constraints(level, mode)`. -/
def get_constraints (nli : NliFn) (level : Nat) (mode : String) : List Constraint :=
  let level_specific := LEVEL_CONSTRAINTS nli level
  if mode = "standard" then
    UNIVERSAL_CONSTRAINTS ++ level_specific
  else if mode = "adversarial" then
    UNIVERSAL_CONSTRAINTS ++
      level_specific.filter
        (fun c => !("1".data.isSuffixOf c.cid.data && c.tier == "structural")) ++
      ADVERSARIAL_CONSTRAINTS
  else UNIVERSAL_CONSTRAINTS

/-- Embeds `get_all_constraint_ids(level, mode)`. -/
def get_all_constraint_ids (nli : NliFn) (level : Nat) (mode : String) : List String :=
  (get_constraints nli level mode).map (fun c => c.cid)

/-! ## Evaluator (`evaluation/evaluate.py`) -/

/-- A passage dict after the `passage.get(...)` defaults of
`evaluate_question`. -/
structure Passage where
  text : String := ""
  key_concepts : List String := []
  methods_principles : List String := []
  subject : String := ""
  passage_id : String := ""

/-- The per-rule try/except boundary inside `evaluate_question`: a raised
exception becomes a failing result with score 0, an `Error:` rationale and
the rule's own id and tier. -/
def runConstraint (c : Constraint) (d : QuestionData) : ConstraintResult :=
  match c.check d with
  | .ok r => r
  | .error e => ⟨c.cid, c.cname, false, 0, "Error: " ++ e, c.tier⟩

/-- Embeds `evaluate_question(question, answer, passage, level, mode, vocab_level)`. -/
def evaluate_question (nli : NliFn) (question answer : String) (passage : Passage)
    (level : Nat) (mode : String) (vocab_level : Option Nat) :
    List ConstraintResult :=
  let data : QuestionData :=
    { question := question
      answer := answer
      passage := passage.text
      target_level := level
      key_concepts := passage.key_concepts
      methods_principles := passage.methods_principles
      mode := mode
      vocab_level := vocab_level
      subject := passage.subject
      passage_id := passage.passage_id }
  (get_constraints nli level mode).map (fun c => runConstraint c data)

/-! ## Metrics (`evaluation/metrics.py`) -/

/-- Embeds `round(x, 4)` with Python float semantics modelled on exact rationals:
round half to even at the fourth decimal. -/
def roundHalfEven (x : ℚ) : ℤ :=
  let f := Int.floor x
  let r := x - (f : ℚ)
  if r < 1 / 2 then f
  else if 1 / 2 < r then f + 1
  else if f % 2 = 0 then f else f + 1

def round4 (x : ℚ) : ℚ := ((roundHalfEven (x * 10000) : ℚ)) / 10000

/-- One generation record as read back by `evaluate_generations`
(`gen.get(...)` fields; `question`/`answer` may be absent). -/
structure GenRecord where
  question : Option String := none
  answer : Option String := none
  level : Nat := 0
  mode : String := "standard"
  vocab_level : Option Nat := none
  subject : String := ""
  passage_id : String := ""

/-- One evaluated record (the dict appended to `evaluated`), restricted to
the fields the metrics read. -/
structure EvalRecord where
  level : Nat := 0
  subject : String := ""
  constraints : List ConstraintResult := []
  all_passed : Bool := false
  pass_rate : ℚ := 0

/-- Python falsiness of `gen.get("question")`. -/
def falsyOptStr : Option String → Bool
  | none => true
  | some s => s.isEmpty

/-- The evaluation loop of `evaluate_generations` (file loading, printing
and saving elided): a record with an empty or absent question short-circuits
to a failed record with an empty constraint list. -/
def evaluate_generations (nli : NliFn) (passage_map : String → Passage)
    (gens : List GenRecord) : List EvalRecord :=
  gens.map (fun gen =>
    if falsyOptStr gen.question then
      { level := gen.level, subject := gen.subject,
        constraints := [], all_passed := false, pass_rate := 0 }
    else
      let results := evaluate_question nli (gen.question.getD "")
        (gen.answer.getD "") (passage_map gen.passage_id)
        gen.level gen.mode gen.vocab_level
      let all_passed := results.all (fun r => r.passed)
      let pass_rate : ℚ :=
        if results.isEmpty then 0
        else ((results.filter (fun r => r.passed)).length : ℚ) / (results.length : ℚ)
      { level := gen.level, subject := gen.subject,
        constraints := results, all_passed := all_passed,
        pass_rate := round4 pass_rate })

/-- Insertion into a sorted rational list. -/
def insertQ (x : ℚ) : List ℚ → List ℚ
  | [] => [x]
  | y :: ys => if x ≤ y then x :: y :: ys else y :: insertQ x ys

/-- Ascending sort, the `np.percentile` pre-sort. -/
def sortQ : List ℚ → List ℚ
  | [] => []
  | x :: xs => insertQ x (sortQ xs)

/-- Embeds `np.mean` of a nonempty list (callers guard emptiness). -/
def meanQ (xs : List ℚ) : ℚ := xs.sum / (xs.length : ℚ)

/-- Embeds `np.percentile(xs, q)` with the default linear interpolation. -/
def percentileQ (xs : List ℚ) (q : ℚ) : ℚ :=
  let s := sortQ xs
  if s.isEmpty then 0
  else
    let h : ℚ := ((s.length : ℚ) - 1) * q / 100
    let lo : Nat := (Int.floor h).toNat
    let frac : ℚ := h - ((Int.floor h : ℤ) : ℚ)
    let a := s.getD lo 0
    let b := s.getD (lo + 1) a
    a + frac * (b - a)

/-- One bootstrap resample: `rng.choice(arr, size=len(arr), replace=True)`.
`rs b j` is the abstract index stream of `np.random.RandomState(SEED)`
(the `b`-th resample, `j`-th slot), reduced into range. -/
def bootSample (rs : Nat → Nat → Nat) (values : List ℚ) (b : Nat) : List ℚ :=
  (List.range values.length).map
    (fun j => values.getD (rs b j % values.length) 0)

/-- The `BOOTSTRAP_N` resampled means. -/
def bootMeans (rs : Nat → Nat → Nat) (values : List ℚ) : List ℚ :=
  (List.range BOOTSTRAP_N).map (fun b => meanQ (bootSample rs values b))

/-- Embeds `np.mean(values) if values else 0.0`. -/
def pointMean (values : List ℚ) : ℚ := if values.isEmpty then 0 else meanQ values

/-- Embeds `_bootstrap_ci(values)`.  `rs` is the deterministic index stream that
`np.random.RandomState(SEED)` yields — the function constructs its
generator locally from the fixed seed.  `ambient` models the state of the
process-global random generator, which the source never consults; it is an
explicit argument precisely so that independence from it is provable. -/
def bootstrap_ci (rs : Nat → Nat → Nat) (ambient : Nat) (values : List ℚ) : ℚ × ℚ :=
  if values.length < 2 then (pointMean values, pointMean values)
  else
    let boot_means := bootMeans rs values
    let alpha : ℚ := (1 - CONFIDENCE_LEVEL) / 2
    (percentileQ boot_means (alpha * 100), percentileQ boot_means ((1 - alpha) * 100))

/-- The rate dicts returned by `_prompt_level` and `_constraint_level`;
`n_pass` is `Option` because the zero-record branch omits that key. -/
structure RateStat where
  rate : ℚ
  n : Nat
  n_pass : Option Nat
  ci_low : ℚ
  ci_high : ℚ
deriving Repr, DecidableEq

/-- Count of `true` entries (`sum(passes)`). -/
def countTrue (bs : List Bool) : Nat := (bs.filter id).length

def boolToQ (b : Bool) : ℚ := if b then 1 else 0

/-- The loose pass condition for one record:
`all(c.get("score", 0) >= 0.5 for c in e.get("constraints", []))`. -/
def loosePass (e : EvalRecord) : Bool :=
  e.constraints.all (fun c => (1 : ℚ) / 2 ≤ c.score)

/-- Embeds `_prompt_level(evaluations, loose)`. -/
def prompt_level (rs : Nat → Nat → Nat) (evaluations : List EvalRecord)
    (loose : Bool) : RateStat :=
  let n_total := evaluations.length
  if n_total = 0 then ⟨0, 0, none, 0, 0⟩
  else
    let passes := evaluations.map
      (fun e => if loose then loosePass e else e.all_passed)
    let n_pass := countTrue passes
    let rate : ℚ := (n_pass : ℚ) / (n_total : ℚ)
    let ci := bootstrap_ci rs 0 (passes.map boolToQ)
    ⟨round4 rate, n_total, some n_pass, round4 ci.1, round4 ci.2⟩

/-- Embeds `_constraint_level(evaluations, loose)`: pooled per-rule outcomes. -/
def constraint_level (rs : Nat → Nat → Nat) (evaluations : List EvalRecord)
    (loose : Bool) : RateStat :=
  let all_results := evaluations.flatMap (fun e =>
    e.constraints.map (fun c =>
      if loose then decide ((1 : ℚ) / 2 ≤ c.score) else c.passed))
  let n_total := all_results.length
  if n_total = 0 then ⟨0, 0, none, 0, 0⟩
  else
    let n_pass := countTrue all_results
    let rate : ℚ := (n_pass : ℚ) / (n_total : ℚ)
    let ci := bootstrap_ci rs 0 (all_results.map boolToQ)
    ⟨round4 rate, n_total, some n_pass, round4 ci.1, round4 ci.2⟩

/-- One entry of `_by_bloom_level`. -/
structure LevelStat where
  name : String
  prompt_strict : ℚ
  n : Nat
  n_pass : Nat
  ci_low : ℚ
  ci_high : ℚ

/-- Embeds `_by_bloom_level(evaluations)`: levels with no records are absent. -/
def by_bloom_level (rs : Nat → Nat → Nat) (evaluations : List EvalRecord)
    (level : Nat) : Option LevelStat :=
  match BLOOM_LEVELS level with
  | none => none
  | some nm =>
    let level_evals := evaluations.filter (fun e => e.level == level)
    if level_evals.isEmpty then none
    else
      let passes := level_evals.map (fun e => e.all_passed)
      let n_pass := countTrue passes
      let n_total := level_evals.length
      let ci := bootstrap_ci rs 0 (passes.map boolToQ)
      some ⟨nm, round4 ((n_pass : ℚ) / (n_total : ℚ)), n_total, n_pass,
            round4 ci.1, round4 ci.2⟩

/-- One entry of `_by_subject`. -/
structure SubjectStat where
  prompt_strict : ℚ
  n : Nat
  n_pass : Nat

/-- Embeds `_by_subject(evaluations)`: subjects absent from the data are absent. -/
def by_subject (evaluations : List EvalRecord) (subject : String) :
    Option SubjectStat :=
  let evals := evaluations.filter (fun e => e.subject == subject)
  if evals.isEmpty then none
  else
    let n_pass := countTrue (evals.map (fun e => e.all_passed))
    some ⟨round4 ((n_pass : ℚ) / (evals.length : ℚ)), evals.length, n_pass⟩

/-- One entry of `_by_constraint` / `_by_tier`. -/
structure PoolStat where
  pass_rate : ℚ
  n_pass : Nat
  n_total : Nat

/-- Embeds `_by_constraint(evaluations)` at one constraint id. -/
def by_constraint (evaluations : List EvalRecord) (cid : String) :
    Option PoolStat :=
  let pool := evaluations.flatMap (fun e =>
    e.constraints.filter (fun c => c.constraint_id == cid))
  if pool.isEmpty then none
  else
    let n_pass := countTrue (pool.map (fun c => c.passed))
    some ⟨round4 ((n_pass : ℚ) / (pool.length : ℚ)), n_pass, pool.length⟩

/-- Embeds `_by_tier(evaluations)` at one tier name. -/
def by_tier (evaluations : List EvalRecord) (tier : String) : Option PoolStat :=
  let pool := evaluations.flatMap (fun e =>
    e.constraints.filter (fun c => c.tier == tier))
  if pool.isEmpty then none
  else
    let n_pass := countTrue (pool.map (fun c => c.passed))
    some ⟨round4 ((n_pass : ℚ) / (pool.length : ℚ)), n_pass, pool.length⟩

/-- The dict built by `compute_metrics` for a nonempty record list. -/
structure Metrics where
  prompt_level_strict : RateStat
  prompt_level_loose : RateStat
  constraint_level_strict : RateStat
  constraint_level_loose : RateStat
  by_level : Nat → Option LevelStat
  by_subject : String → Option SubjectStat
  by_constraint : String → Option PoolStat
  by_tier : String → Option PoolStat

/-- Embeds `compute_metrics(evaluations)`; `if not evaluations: return {}` is
modelled as `none`. -/
def compute_metrics (rs : Nat → Nat → Nat) (evaluations : List EvalRecord) :
    Option Metrics :=
  if evaluations.isEmpty then none
  else some
    { prompt_level_strict := prompt_level rs evaluations false
      prompt_level_loose := prompt_level rs evaluations true
      constraint_level_strict := constraint_level rs evaluations false
      constraint_level_loose := constraint_level rs evaluations true
      by_level := by_bloom_level rs evaluations
      by_subject := by_subject evaluations
      by_constraint := by_constraint evaluations
      by_tier := by_tier evaluations }

/-! ## Adversarial gap (`compute_adversarial_gap`) -/

/-- What `compute_adversarial_gap` reads from a metrics dict:
`metrics.get("prompt_level_strict", {}).get("rate", 0)` and
`metrics.get("by_level", {}).get(level, {}).get("prompt_strict", 0)`. -/
structure GapInput where
  prompt_strict_rate : ℚ := 0
  level_prompt_strict : Nat → Option ℚ := fun _ => none

/-- One per-level entry of the gap result (`name` elided). -/
structure GapLevelEntry where
  standard : ℚ
  adversarial : ℚ
  gap : ℚ

structure GapResult where
  overall_gap : ℚ
  standard_rate : ℚ
  adversarial_rate : ℚ
  by_level : Nat → Option GapLevelEntry

/-- Embeds `compute_adversarial_gap(standard_metrics, adversarial_metrics)`. -/
def compute_adversarial_gap (std adv : GapInput) : GapResult :=
  let std_rate := std.prompt_strict_rate
  let adv_rate := adv.prompt_strict_rate
  let gap := std_rate - adv_rate
  { overall_gap := round4 gap
    standard_rate := round4 std_rate
    adversarial_rate := round4 adv_rate
    by_level := fun level =>
      match BLOOM_LEVELS level with
      | none => none
      | some _ =>
        let std_l := (std.level_prompt_strict level).getD 0
        let adv_l := (adv.level_prompt_strict level).getD 0
        some ⟨round4 std_l, round4 adv_l, round4 (std_l - adv_l)⟩ }

/-! ## Helper lemmas -/

theorem okInj {α β : Type} {x y : α} (h : (Except.ok x : Except β α) = .ok y) :
    x = y := by
  injection h

theorem natRatio_nonneg (a b : Nat) : 0 ≤ (a : ℚ) / (b : ℚ) := by positivity

theorem natRatio_le_one {a b : Nat} (h : a ≤ b) : (a : ℚ) / (b : ℚ) ≤ 1 := by
  rcases Nat.eq_zero_or_pos b with hb | hb
  · subst hb
    simp [Nat.le_zero.mp h]
  · rw [div_le_one (by exact_mod_cast hb)]
    exact_mod_cast h

theorem minOne_bounds {x : ℚ} (hx : 0 ≤ x) : 0 ≤ min x 1 ∧ min x 1 ≤ 1 :=
  ⟨le_min hx zero_le_one, min_le_right _ _⟩

theorem word_overlap_bounds (a b : List (List Char)) :
    0 ≤ word_overlap a b ∧ word_overlap a b ≤ 1 := by
  unfold word_overlap
  split
  · norm_num
  · exact ⟨natRatio_nonneg _ _, natRatio_le_one (List.length_filter_le _ _)⟩

theorem ngram_overlap_bounds (a b : List (List Char)) :
    0 ≤ ngram_overlap a b ∧ ngram_overlap a b ≤ 1 := by
  simp only [ngram_overlap]
  split
  · norm_num
  · split
    · norm_num
    · exact ⟨natRatio_nonneg _ _, natRatio_le_one (List.length_filter_le _ _)⟩

theorem roundHalfEven_intCast (k : ℤ) : roundHalfEven (k : ℚ) = k := by
  simp only [roundHalfEven, Int.floor_intCast, sub_self]
  norm_num

/-- A rational exactly representable with four decimal digits. -/
def IsRound4 (x : ℚ) : Prop := ∃ k : ℤ, x = (k : ℚ) / 10000

theorem round4_fixed {x : ℚ} (h : IsRound4 x) : round4 x = x := by
  obtain ⟨k, rfl⟩ := h
  unfold round4
  rw [div_mul_cancel₀ _ (by norm_num : (10000 : ℚ) ≠ 0), roundHalfEven_intCast]

theorem IsRound4.sub {x y : ℚ} (hx : IsRound4 x) (hy : IsRound4 y) :
    IsRound4 (x - y) := by
  obtain ⟨k, rfl⟩ := hx
  obtain ⟨j, rfl⟩ := hy
  exact ⟨k - j, by push_cast; ring⟩

theorem round4_zero : round4 0 = 0 :=
  round4_fixed ⟨0, by norm_num⟩

theorem isRound4_round4 (x : ℚ) : IsRound4 (round4 x) :=
  ⟨roundHalfEven (x * 10000), rfl⟩

/-- Every rate the aggregator emits carries at most four decimals, so the
hypothesis of the adversarial-gap theorem holds for all aggregator
outputs. -/
theorem prompt_level_rate_isRound4 (rs : Nat → Nat → Nat)
    (evals : List EvalRecord) (loose : Bool) :
    IsRound4 (prompt_level rs evals loose).rate := by
  simp only [prompt_level]
  split
  all_goals try split
  all_goals first
    | exact isRound4_round4 _
    | exact ⟨0, by norm_num⟩

/-! ## Claim theorems -/

/-- The vocabulary-rule id of each level, named in the spec as the digit-1
rule R1/D1/P1/A1/E1/C1. -/
def vocabRuleId : Nat → String
  | 1 => "R1"
  | 2 => "D1"
  | 3 => "P1"
  | 4 => "A1"
  | 5 => "E1"
  | 6 => "C1"
  | _ => ""

/-- C1: for every level L in [1,6] and both modes, the Selector output
begins with the four universal ids U1..U4; standard mode includes level L's
own vocabulary rule id; adversarial mode never includes it, includes every
other structural and semantic rule id of level L, and always includes AV
and AN. -/
theorem selector_spec (nli : NliFn) (L : Nat)
    (hL : L ∈ ([1, 2, 3, 4, 5, 6] : List Nat)) :
    (get_all_constraint_ids nli L "standard").take 4 = ["U1", "U2", "U3", "U4"] ∧
    (get_all_constraint_ids nli L "adversarial").take 4 = ["U1", "U2", "U3", "U4"] ∧
    vocabRuleId L ∈ get_all_constraint_ids nli L "standard" ∧
    vocabRuleId L ∉ get_all_constraint_ids nli L "adversarial" ∧
    (∀ cid ∈ (LEVEL_CONSTRAINTS nli L).map (fun c => c.cid),
        cid ≠ vocabRuleId L → cid ∈ get_all_constraint_ids nli L "adversarial") ∧
    "AV" ∈ get_all_constraint_ids nli L "adversarial" ∧
    "AN" ∈ get_all_constraint_ids nli L "adversarial" := by
  simp only [List.mem_cons, List.not_mem_nil, or_false] at hL
  rcases hL with rfl | rfl | rfl | rfl | rfl | rfl <;> exact of_decide_eq_true rfl

/-- Witness for C1 at level 3 with a concrete (unavailable) NLI backend. -/
theorem selector_spec_witness :
    "AV" ∈ get_all_constraint_ids (fun _ _ => .error "unavailable") 3 "adversarial" :=
  (selector_spec (fun _ _ => .error "unavailable") 3 (by decide)).2.2.2.2.2.1

/-- C4: the short-answer rule R3 passes iff the answer has at most 20
words; the substantial-answer rule C4 passes iff the answer has more than
50 words; the universal word-count rule U2 passes iff the question word
count lies in [10,150], with the lower bound relaxed to 5 when the target
level is 1. -/
theorem boundary_rules_spec (d : QuestionData) :
    ((rememberShortAnswerCheck d).passed = true ↔ d.answer_words.length ≤ 20) ∧
    ((createSubstantialAnswerCheck d).passed = true ↔ 50 < d.answer_words.length) ∧
    ((wordCountCheck d).passed = true ↔
      ((if d.target_level = 1 then 5 else 10) ≤ d.question_words.length ∧
        d.question_words.length ≤ 150)) := by
  refine ⟨?_, ?_, ?_⟩
  · simp only [rememberShortAnswerCheck, R_MAX_ANSWER_WORDS, mkResult]
    split <;> simp_all
  · simp only [createSubstantialAnswerCheck, C_MIN_ANSWER_WORDS, mkResult]
    split <;> simp_all
  · by_cases h1 : d.target_level = 1 <;>
      simp only [wordCountCheck, U_MIN_WORDS, U_MAX_WORDS, mkResult, h1,
        beq_self_eq_true, if_true, beq_iff_eq, if_false] <;>
      split <;> (try split) <;> simp_all

/-- The concrete record of claim C10: an adversarial Apply-level record
whose question contains the word "because". -/
def dBecause : QuestionData :=
  { question := "Because of the reaction?", answer := "", passage := "",
    target_level := 3, mode := "adversarial", vocab_level := some 2 }

/-- C10: vocabulary matching is plain substring containment on the
lower-cased question, not word-boundary matching: "because" contains the
Apply verb "use" as a substring, so the P1 rule passes with score 1 (the
verb branch) and the AN rule fails with score 0.5 for target level 3, even
though no word-boundary occurrence of "use" exists. -/
theorem substring_vocab_matching :
    (applyVocabularyCheck dBecause).passed = true ∧
    (applyVocabularyCheck dBecause).score = 1 ∧
    (adversarialNoTargetVocabCheck dBecause).passed = false ∧
    (adversarialNoTargetVocabCheck dBecause).score = 1 / 2 ∧
    listContains "use".data dBecause.qlower = true ∧
    wordRegexMatch "use".data dBecause.qlower = false := by
  refine ⟨rfl, rfl, rfl, rfl, rfl, rfl⟩

/-- The six Bloom verb lists are all nonempty. -/
theorem bloomVerbs_nonempty {v : Nat} (h1 : 1 ≤ v) (h6 : v ≤ 6) :
    (BLOOM_VERBS v).isEmpty = false := by
  interval_cases v <;> decide

/-- C3: in adversarial mode with a vocab level in [1,6], AV passes iff the
lower-cased question contains a verb from the vocab level's list; AN passes
(score 1) iff it contains no verb from the target level's list, and scores
exactly 0.5 when it fails. -/
theorem adversarial_tier_spec (d : QuestionData) (v : Nat)
    (hm : d.mode = "adversarial") (hv : d.vocab_level = some v)
    (h1 : 1 ≤ v) (h6 : v ≤ 6) :
    ((adversarialVocabularyCheck d).passed = true ↔
      contains_any d.qlower (BLOOM_VERBS v) = true) ∧
    ((adversarialNoTargetVocabCheck d).passed = true ↔
      contains_any d.qlower (BLOOM_VERBS d.target_level) = false) ∧
    ((adversarialNoTargetVocabCheck d).passed = true →
      (adversarialNoTargetVocabCheck d).score = 1) ∧
    ((adversarialNoTargetVocabCheck d).passed = false →
      (adversarialNoTargetVocabCheck d).score = 1 / 2) := by
  have hAV : adversarialVocabularyCheck d =
      (if contains_any d.qlower (BLOOM_VERBS v) then
        mkResult "AV" "adversarial_vocabulary" "adversarial" true 1
          "Uses vocabulary from the specified level"
      else
        mkResult "AV" "adversarial_vocabulary" "adversarial" false 0
          "Does not use vocabulary from the specified level") := by
    unfold adversarialVocabularyCheck
    rw [hm, hv]
    simp [bloomVerbs_nonempty h1 h6]
  have hAN : adversarialNoTargetVocabCheck d =
      (if (BLOOM_VERBS d.target_level).isEmpty then
        mkResult "AN" "no_target_vocabulary" "adversarial" true 1
          "No verbs defined for target level; skipped"
      else if contains_any d.qlower (BLOOM_VERBS d.target_level) then
        mkResult "AN" "no_target_vocabulary" "adversarial" false (1 / 2)
          "Uses target-level vocabulary"
      else
        mkResult "AN" "no_target_vocabulary" "adversarial" true 1
          "Avoids target-level vocabulary") := by
    unfold adversarialNoTargetVocabCheck
    rw [hm]
    simp
  refine ⟨?_, ?_, ?_, ?_⟩
  · rw [hAV]
    split <;> simp_all [mkResult]
  · rw [hAN]
    split
    · rename_i hEmpty
      rw [List.isEmpty_iff] at hEmpty
      simp [mkResult, hEmpty, contains_any]
    · split <;> simp_all [mkResult]
  · rw [hAN]
    split
    · simp [mkResult]
    · split <;> simp [mkResult]
  · rw [hAN]
    split
    · simp [mkResult]
    · split <;> simp [mkResult]

/-- The concrete adversarially-compliant record of the spec: target level
4, vocab level 1, question uses "list" and no Analyze verb. -/
def dListParts : QuestionData :=
  { question := "List the parts of the cell described in the passage?",
    answer := "", passage := "", target_level := 4,
    mode := "adversarial", vocab_level := some 1 }

/-- Witness for C3 at the concrete record `dListParts`. -/
theorem adversarial_tier_spec_witness :
    ((adversarialVocabularyCheck dListParts).passed = true ↔
      contains_any dListParts.qlower (BLOOM_VERBS 1) = true) ∧
    ((adversarialNoTargetVocabCheck dListParts).passed = true ↔
      contains_any dListParts.qlower (BLOOM_VERBS dListParts.target_level) = false) ∧
    ((adversarialNoTargetVocabCheck dListParts).passed = true →
      (adversarialNoTargetVocabCheck dListParts).score = 1) ∧
    ((adversarialNoTargetVocabCheck dListParts).passed = false →
      (adversarialNoTargetVocabCheck dListParts).score = 1 / 2) :=
  adversarial_tier_spec dListParts 1 rfl rfl (by decide) (by decide)

/-- A generation record whose question is the empty string — the failing
input of claim C2. -/
def emptyGen : GenRecord := { question := some "", level := 1 }

/-- C2 (divergence): a record with an empty question is marked failed with
no constraint invoked and is never counted by the strict prompt-level rate,
but the loose prompt-level rate vacuously counts it as passing, because
`all` over its empty constraint list is true. -/
theorem empty_question_loose_pass_bug (nli : NliFn) (pm : String → Passage)
    (rs : Nat → Nat → Nat) :
    evaluate_generations nli pm [emptyGen] =
      [{ level := 1, subject := "", constraints := [],
         all_passed := false, pass_rate := 0 }] ∧
    (prompt_level rs (evaluate_generations nli pm [emptyGen]) false).rate = 0 ∧
    (prompt_level rs (evaluate_generations nli pm [emptyGen]) false).n_pass = some 0 ∧
    (prompt_level rs (evaluate_generations nli pm [emptyGen]) true).rate = 1 ∧
    (prompt_level rs (evaluate_generations nli pm [emptyGen]) true).n_pass = some 1 := by
  refine ⟨rfl, ?_, rfl, ?_, rfl⟩
  · show round4 ((0 : ℚ) / (1 : ℚ)) = 0
    rw [zero_div, round4_zero]
  · show round4 ((1 : ℚ) / (1 : ℚ)) = 1
    rw [div_one]
    exact round4_fixed ⟨10000, by norm_num⟩

/-- C8 (counterexample): aggregate metrics over an empty record list are an
empty dict, carrying no rate or count entries at all. -/
theorem compute_metrics_empty_counterexample :
    compute_metrics (fun _ _ => 0) [] = none := rfl

/-- C8 (amended): computing metrics over zero records raises no exception;
`compute_metrics` returns an empty result, and the rate helpers return the
explicit zero shape (rate 0, n 0, no pass count, CI (0,0)) on empty input. -/
theorem empty_aggregation_spec (rs : Nat → Nat → Nat) :
    compute_metrics rs [] = none ∧
    prompt_level rs [] false = ⟨0, 0, none, 0, 0⟩ ∧
    prompt_level rs [] true = ⟨0, 0, none, 0, 0⟩ ∧
    constraint_level rs [] false = ⟨0, 0, none, 0, 0⟩ ∧
    constraint_level rs [] true = ⟨0, 0, none, 0, 0⟩ :=
  ⟨rfl, rfl, rfl, rfl, rfl⟩

/-- C6: the overall adversarial gap is the standard prompt-level strict
rate minus the adversarial one (whenever both rates carry at most four
decimals, as every rate produced by the aggregator does), so it can be
negative; passing the same metrics for both arguments yields gap 0 overall
and at every Bloom level. -/
theorem adversarial_gap_spec (std adv m : GapInput)
    (h1 : IsRound4 std.prompt_strict_rate) (h2 : IsRound4 adv.prompt_strict_rate) :
    (compute_adversarial_gap std adv).overall_gap =
      std.prompt_strict_rate - adv.prompt_strict_rate ∧
    (compute_adversarial_gap m m).overall_gap = 0 ∧
    (∀ L, 1 ≤ L → L ≤ 6 →
      ∃ e, (compute_adversarial_gap m m).by_level L = some e ∧ e.gap = 0) := by
  refine ⟨?_, ?_, ?_⟩
  · exact round4_fixed (h1.sub h2)
  · show round4 (m.prompt_strict_rate - m.prompt_strict_rate) = 0
    rw [sub_self, round4_zero]
  · intro L hL1 hL6
    interval_cases L <;>
      exact ⟨_, rfl, by show round4 (_ - _) = 0; rw [sub_self, round4_zero]⟩

/-- Witness for C6: a 0.8 standard rate against a 0.3 adversarial rate
gives gap 0.5, and swapping the arguments gives a negative gap. -/
theorem adversarial_gap_spec_witness :
    (compute_adversarial_gap ⟨8 / 10, fun _ => none⟩
        ⟨3 / 10, fun _ => none⟩).overall_gap = 1 / 2 ∧
    (compute_adversarial_gap ⟨3 / 10, fun _ => none⟩
        ⟨8 / 10, fun _ => none⟩).overall_gap < 0 ∧
    (∃ e, (compute_adversarial_gap ⟨1 / 2, fun _ => some (1 / 4)⟩
        ⟨1 / 2, fun _ => some (1 / 4)⟩).by_level 2 = some e ∧ e.gap = 0) := by
  refine ⟨?_, ?_, ?_⟩
  · rw [(adversarial_gap_spec ⟨8 / 10, fun _ => none⟩ ⟨3 / 10, fun _ => none⟩
      ⟨0, fun _ => none⟩ ⟨8000, by norm_num⟩ ⟨3000, by norm_num⟩).1]
    norm_num
  · rw [(adversarial_gap_spec ⟨3 / 10, fun _ => none⟩ ⟨8 / 10, fun _ => none⟩
      ⟨0, fun _ => none⟩ ⟨3000, by norm_num⟩ ⟨8000, by norm_num⟩).1]
    norm_num
  · exact (adversarial_gap_spec ⟨3 / 10, fun _ => none⟩ ⟨8 / 10, fun _ => none⟩
      ⟨1 / 2, fun _ => some (1 / 4)⟩ ⟨3000, by norm_num⟩
      ⟨8000, by norm_num⟩).2.2 2 (by norm_num) (by norm_num)

/-- C7: a rule whose check raises is converted at the evaluator boundary
into a failing result with score 0, a rationale prefixed by the error
marker, and the rule's own id and tier; and the evaluator always produces
one result per selected constraint, so neither the record nor the batch is
aborted. -/
theorem rule_error_isolation (c : Constraint) (d : QuestionData) (e : String)
    (h : c.check d = .error e) :
    runConstraint c d = ⟨c.cid, c.cname, false, 0, "Error: " ++ e, c.tier⟩ ∧
    (∀ (nli : NliFn) (q a : String) (p : Passage) (level : Nat) (mode : String)
        (vl : Option Nat),
      (evaluate_question nli q a p level mode vl).length =
        (get_constraints nli level mode).length) := by
  constructor
  · unfold runConstraint
    rw [h]
  · intro nli q a p level mode vl
    unfold evaluate_question
    exact List.length_map _ _

/-- A rule that always raises, and a trivial record, for the C7 witness. -/
def failingRule : Constraint :=
  ⟨"Z9", "always_raises", "structural", fun _ => .error "boom"⟩

def dTrivial : QuestionData :=
  { question := "", answer := "", passage := "", target_level := 1 }

/-- Witness for C7 at a concrete raising rule. -/
theorem rule_error_isolation_witness :
    runConstraint failingRule dTrivial =
      ⟨"Z9", "always_raises", false, 0, "Error: boom", "structural"⟩ :=
  (rule_error_isolation failingRule dTrivial "boom" rfl).1

/-- C5: the bootstrap confidence interval is deterministic — it does not
depend on the ambient global random state, because the generator is
re-seeded from the fixed SEED inside every call — collapses to the point
value for fewer than two observations (0 for the empty input), and
otherwise returns the 2.5th and 97.5th percentiles of the 1000 resampled
means drawn through the seeded stream. -/
theorem bootstrap_ci_spec (rs : Nat → Nat → Nat) (a b : Nat) (v : List ℚ) :
    bootstrap_ci rs a v = bootstrap_ci rs b v ∧
    (v = [] → bootstrap_ci rs a v = (0, 0)) ∧
    (∀ x, v = [x] → bootstrap_ci rs a v = (x, x)) ∧
    (2 ≤ v.length →
      bootstrap_ci rs a v =
        (percentileQ (bootMeans rs v) (5 / 2),
         percentileQ (bootMeans rs v) (195 / 2))) := by
  refine ⟨rfl, ?_, ?_, ?_⟩
  · rintro rfl
    rfl
  · rintro x rfl
    show (pointMean [x], pointMean [x]) = (x, x)
    simp [pointMean, meanQ]
  · intro hlen
    unfold bootstrap_ci
    rw [if_neg (by omega)]
    have ha : ((1 : ℚ) - CONFIDENCE_LEVEL) / 2 * 100 = 5 / 2 := by
      norm_num [CONFIDENCE_LEVEL]
    have hb : (1 - ((1 : ℚ) - CONFIDENCE_LEVEL) / 2) * 100 = 195 / 2 := by
      norm_num [CONFIDENCE_LEVEL]
    show (percentileQ (bootMeans rs v) (((1 : ℚ) - CONFIDENCE_LEVEL) / 2 * 100),
          percentileQ (bootMeans rs v) ((1 - ((1 : ℚ) - CONFIDENCE_LEVEL) / 2) * 100)) = _
    rw [ha, hb]

/-- Witness for C5 at empty, singleton and two-element inputs. -/
theorem bootstrap_ci_spec_witness :
    bootstrap_ci (fun _ _ => 0) 0 ([] : List ℚ) = (0, 0) ∧
    bootstrap_ci (fun _ _ => 0) 0 ([3] : List ℚ) = (3, 3) ∧
    bootstrap_ci (fun _ _ => 0) 0 ([0, 1] : List ℚ) =
      (percentileQ (bootMeans (fun _ _ => 0) [0, 1]) (5 / 2),
       percentileQ (bootMeans (fun _ _ => 0) [0, 1]) (195 / 2)) :=
  ⟨(bootstrap_ci_spec (fun _ _ => 0) 0 0 []).2.1 rfl,
   (bootstrap_ci_spec (fun _ _ => 0) 0 0 [3]).2.2.1 3 rfl,
   (bootstrap_ci_spec (fun _ _ => 0) 0 0 [0, 1]).2.2.2 (by decide)⟩

/-! ## Score bounds for every rule in the library (claim C9) -/

theorem find_concepts_length_le (t : List Char) (cs : List String) :
    (find_concepts_in_text t cs).length ≤ cs.length :=
  List.length_filter_le _ _

theorem isQuestion_score_unit (d : QuestionData) :
    0 ≤ (isQuestionCheck d).score ∧ (isQuestionCheck d).score ≤ 1 := by
  simp only [isQuestionCheck, mkResult]
  repeat' split
  all_goals norm_num

theorem wordCount_score_unit (d : QuestionData) :
    0 ≤ (wordCountCheck d).score ∧ (wordCountCheck d).score ≤ 1 := by
  simp only [wordCountCheck, mkResult]
  repeat' split
  all_goals first
    | exact ⟨natRatio_nonneg _ _, natRatio_le_one (by omega)⟩
    | norm_num

theorem passageRelevance_score_unit (d : QuestionData) :
    0 ≤ (passageRelevanceCheck d).score ∧ (passageRelevanceCheck d).score ≤ 1 := by
  simp only [passageRelevanceCheck, mkResult]
  repeat' split
  all_goals first
    | exact minOne_bounds (natRatio_nonneg _ _)
    | norm_num

theorem noDegenerate_score_unit (d : QuestionData) :
    0 ≤ (noDegenerateCheck d).score ∧ (noDegenerateCheck d).score ≤ 1 := by
  simp only [noDegenerateCheck, mkResult]
  repeat' split
  all_goals first
    | exact ⟨natRatio_nonneg _ _, natRatio_le_one (by omega)⟩
    | norm_num

theorem rememberVocabulary_score_unit (d : QuestionData) :
    0 ≤ (rememberVocabularyCheck d).score ∧ (rememberVocabularyCheck d).score ≤ 1 := by
  simp only [rememberVocabularyCheck, mkResult]
  repeat' split
  all_goals norm_num

theorem rememberSingleConcept_score_unit (d : QuestionData) :
    0 ≤ (rememberSingleConceptCheck d).score ∧
      (rememberSingleConceptCheck d).score ≤ 1 := by
  simp only [rememberSingleConceptCheck, mkResult]
  repeat' split
  all_goals first
    | exact ⟨natRatio_nonneg _ _, natRatio_le_one (by omega)⟩
    | norm_num

theorem rememberShortAnswer_score_unit (d : QuestionData) :
    0 ≤ (rememberShortAnswerCheck d).score ∧
      (rememberShortAnswerCheck d).score ≤ 1 := by
  simp only [rememberShortAnswerCheck, mkResult]
  repeat' split
  all_goals first
    | exact ⟨natRatio_nonneg _ _, natRatio_le_one (by omega)⟩
    | norm_num

theorem rememberExtractable_score_unit (d : QuestionData) :
    0 ≤ (rememberExtractableCheck d).score ∧
      (rememberExtractableCheck d).score ≤ 1 := by
  simp only [rememberExtractableCheck, mkResult]
  repeat' split
  all_goals first
    | exact word_overlap_bounds _ _
    | norm_num

theorem understandVocabulary_score_unit (d : QuestionData) :
    0 ≤ (understandVocabularyCheck d).score ∧
      (understandVocabularyCheck d).score ≤ 1 := by
  simp only [understandVocabularyCheck, mkResult]
  repeat' split
  all_goals norm_num

theorem understandNotCopied_score_unit (d : QuestionData) :
    0 ≤ (understandNotCopiedCheck d).score ∧
      (understandNotCopiedCheck d).score ≤ 1 := by
  simp only [understandNotCopiedCheck, mkResult]
  repeat' split
  all_goals first
    | exact ⟨sub_nonneg.mpr (ngram_overlap_bounds _ _).2,
             sub_le_self 1 (ngram_overlap_bounds _ _).1⟩
    | norm_num

theorem understandMeaning_score_unit (d : QuestionData) :
    0 ≤ (understandMeaningCheck d).score ∧
      (understandMeaningCheck d).score ≤ 1 := by
  simp only [understandMeaningCheck, mkResult]
  repeat' split
  all_goals norm_num

theorem applyVocabulary_score_unit (d : QuestionData) :
    0 ≤ (applyVocabularyCheck d).score ∧ (applyVocabularyCheck d).score ≤ 1 := by
  simp only [applyVocabularyCheck, mkResult]
  repeat' split
  all_goals norm_num

theorem applyMethodReference_score_unit (d : QuestionData) :
    0 ≤ (applyMethodReferenceCheck d).score ∧
      (applyMethodReferenceCheck d).score ≤ 1 := by
  simp only [applyMethodReferenceCheck, mkResult]
  repeat' split
  all_goals norm_num

theorem applySpecificResult_score_unit (d : QuestionData) :
    0 ≤ (applySpecificResultCheck d).score ∧
      (applySpecificResultCheck d).score ≤ 1 := by
  simp only [applySpecificResultCheck, mkResult]
  repeat' split
  all_goals norm_num

theorem analyzeVocabulary_score_unit (d : QuestionData) :
    0 ≤ (analyzeVocabularyCheck d).score ∧
      (analyzeVocabularyCheck d).score ≤ 1 := by
  simp only [analyzeVocabularyCheck, mkResult]
  repeat' split
  all_goals norm_num

theorem analyzeMultipleConcepts_score_unit (d : QuestionData) :
    0 ≤ (analyzeMultipleConceptsCheck d).score ∧
      (analyzeMultipleConceptsCheck d).score ≤ 1 := by
  simp only [analyzeMultipleConceptsCheck, mkResult]
  repeat' split
  all_goals first
    | exact minOne_bounds (natRatio_nonneg _ _)
    | norm_num

theorem analyzeRelationship_score_unit (d : QuestionData) :
    0 ≤ (analyzeRelationshipCheck d).score ∧
      (analyzeRelationshipCheck d).score ≤ 1 := by
  simp only [analyzeRelationshipCheck, mkResult]
  repeat' split
  all_goals norm_num

theorem analyzeAnswerCoverage_score_unit (d : QuestionData) :
    0 ≤ (analyzeAnswerCoverageCheck d).score ∧
      (analyzeAnswerCoverageCheck d).score ≤ 1 := by
  simp only [analyzeAnswerCoverageCheck, mkResult]
  repeat' split
  all_goals first
    | exact ⟨natRatio_nonneg _ _, natRatio_le_one (find_concepts_length_le _ _)⟩
    | norm_num

theorem evaluateVocabulary_score_unit (d : QuestionData) :
    0 ≤ (evaluateVocabularyCheck d).score ∧
      (evaluateVocabularyCheck d).score ≤ 1 := by
  simp only [evaluateVocabularyCheck, mkResult]
  repeat' split
  all_goals norm_num

theorem evaluateClaim_score_unit (d : QuestionData) :
    0 ≤ (evaluateClaimCheck d).score ∧ (evaluateClaimCheck d).score ≤ 1 := by
  simp only [evaluateClaimCheck, mkResult]
  repeat' split
  all_goals norm_num

theorem evaluateEvidenceRequest_score_unit (d : QuestionData) :
    0 ≤ (evaluateEvidenceRequestCheck d).score ∧
      (evaluateEvidenceRequestCheck d).score ≤ 1 := by
  simp only [evaluateEvidenceRequestCheck, mkResult]
  repeat' split
  all_goals norm_num

theorem evaluateArgumentation_score_unit (d : QuestionData) :
    0 ≤ (evaluateArgumentationCheck d).score ∧
      (evaluateArgumentationCheck d).score ≤ 1 := by
  simp only [evaluateArgumentationCheck, mkResult]
  repeat' split
  all_goals norm_num

theorem createVocabulary_score_unit (d : QuestionData) :
    0 ≤ (createVocabularyCheck d).score ∧
      (createVocabularyCheck d).score ≤ 1 := by
  simp only [createVocabularyCheck, mkResult]
  repeat' split
  all_goals norm_num

theorem createSpecifications_score_unit (d : QuestionData) :
    0 ≤ (createSpecificationsCheck d).score ∧
      (createSpecificationsCheck d).score ≤ 1 := by
  simp only [createSpecificationsCheck, mkResult]
  repeat' split
  all_goals first
    | exact minOne_bounds (natRatio_nonneg _ _)
    | norm_num

theorem createSubstantialAnswer_score_unit (d : QuestionData) :
    0 ≤ (createSubstantialAnswerCheck d).score ∧
      (createSubstantialAnswerCheck d).score ≤ 1 := by
  simp only [createSubstantialAnswerCheck, mkResult]
  repeat' split
  all_goals first
    | exact minOne_bounds (natRatio_nonneg _ _)
    | norm_num

theorem adversarialVocabulary_score_unit (d : QuestionData) :
    0 ≤ (adversarialVocabularyCheck d).score ∧
      (adversarialVocabularyCheck d).score ≤ 1 := by
  simp only [adversarialVocabularyCheck, mkResult]
  repeat' split
  all_goals norm_num

theorem adversarialNoTargetVocab_score_unit (d : QuestionData) :
    0 ≤ (adversarialNoTargetVocabCheck d).score ∧
      (adversarialNoTargetVocabCheck d).score ≤ 1 := by
  simp only [adversarialNoTargetVocabCheck, mkResult]
  repeat' split
  all_goals norm_num

theorem understandSupported_score_unit (nli : NliFn) (hn : WellFormedNli nli)
    (d : QuestionData) :
    0 ≤ (understandSupportedCheck nli d).score ∧
      (understandSupportedCheck nli d).score ≤ 1 := by
  simp only [understandSupportedCheck, mkResult]
  split
  · norm_num
  · split
    · norm_num
    · rename_i scores heq
      have hb := (hn _ _ _ heq).1
      split <;>
        exact ⟨sub_nonneg.mpr hb.2, sub_le_self 1 hb.1⟩

theorem applyNewScenario_score_unit (nli : NliFn) (hn : WellFormedNli nli)
    (d : QuestionData) :
    0 ≤ (applyNewScenarioCheck nli d).score ∧
      (applyNewScenarioCheck nli d).score ≤ 1 := by
  simp only [applyNewScenarioCheck, mkResult]
  split
  · norm_num
  · split
    · norm_num
    · rename_i scores heq
      have hb := (hn _ _ _ heq).2
      split <;>
        exact ⟨add_nonneg hb.1 hb.2.1, hb.2.2⟩

theorem createNovel_score_unit (nli : NliFn) (hn : WellFormedNli nli)
    (d : QuestionData) :
    0 ≤ (createNovelCheck nli d).score ∧ (createNovelCheck nli d).score ≤ 1 := by
  simp only [createNovelCheck, mkResult]
  split
  · norm_num
  · split
    · norm_num
    · rename_i scores heq
      have hb := (hn _ _ _ heq).2
      split <;>
        exact ⟨add_nonneg hb.1 hb.2.1, hb.2.2⟩

/-- Every constraint object of the library, across all four tiers. -/
def ALL_CONSTRAINTS (nli : NliFn) : List Constraint :=
  UNIVERSAL_CONSTRAINTS ++ REMEMBER_CONSTRAINTS ++ UNDERSTAND_CONSTRAINTS ++
  APPLY_CONSTRAINTS ++ ANALYZE_CONSTRAINTS ++ EVALUATE_CONSTRAINTS ++
  CREATE_CONSTRAINTS ++
  [UnderstandSupported nli, ApplyNewScenario nli, CreateNovel nli] ++
  ADVERSARIAL_CONSTRAINTS

/-- C9: for every record and every constraint in the library (universal,
structural, semantic, adversarial), the produced result has a score in the
closed interval [0,1]; for the semantic tier this holds for any NLI backend
whose outputs respect the softmax bounds. -/
theorem all_scores_in_unit_interval (nli : NliFn) (hn : WellFormedNli nli)
    (d : QuestionData) (c : Constraint) (hc : c ∈ ALL_CONSTRAINTS nli)
    (r : ConstraintResult) (hr : c.check d = .ok r) :
    0 ≤ r.score ∧ r.score ≤ 1 := by
  simp only [ALL_CONSTRAINTS, UNIVERSAL_CONSTRAINTS, REMEMBER_CONSTRAINTS,
    UNDERSTAND_CONSTRAINTS, APPLY_CONSTRAINTS, ANALYZE_CONSTRAINTS,
    EVALUATE_CONSTRAINTS, CREATE_CONSTRAINTS, ADVERSARIAL_CONSTRAINTS,
    List.mem_append, List.mem_cons, List.not_mem_nil, or_false, or_assoc] at hc
  rcases hc with rfl | rfl | rfl | rfl | rfl | rfl | rfl | rfl | rfl | rfl |
    rfl | rfl | rfl | rfl | rfl | rfl | rfl | rfl | rfl | rfl | rfl | rfl |
    rfl | rfl | rfl | rfl | rfl | rfl | rfl | rfl
  · exact (okInj hr) ▸ isQuestion_score_unit d
  · exact (okInj hr) ▸ wordCount_score_unit d
  · exact (okInj hr) ▸ passageRelevance_score_unit d
  · exact (okInj hr) ▸ noDegenerate_score_unit d
  · exact (okInj hr) ▸ rememberVocabulary_score_unit d
  · exact (okInj hr) ▸ rememberSingleConcept_score_unit d
  · exact (okInj hr) ▸ rememberShortAnswer_score_unit d
  · exact (okInj hr) ▸ rememberExtractable_score_unit d
  · exact (okInj hr) ▸ understandVocabulary_score_unit d
  · exact (okInj hr) ▸ understandNotCopied_score_unit d
  · exact (okInj hr) ▸ understandMeaning_score_unit d
  · exact (okInj hr) ▸ applyVocabulary_score_unit d
  · exact (okInj hr) ▸ applyMethodReference_score_unit d
  · exact (okInj hr) ▸ applySpecificResult_score_unit d
  · exact (okInj hr) ▸ analyzeVocabulary_score_unit d
  · exact (okInj hr) ▸ analyzeMultipleConcepts_score_unit d
  · exact (okInj hr) ▸ analyzeRelationship_score_unit d
  · exact (okInj hr) ▸ analyzeAnswerCoverage_score_unit d
  · exact (okInj hr) ▸ evaluateVocabulary_score_unit d
  · exact (okInj hr) ▸ evaluateClaim_score_unit d
  · exact (okInj hr) ▸ evaluateEvidenceRequest_score_unit d
  · exact (okInj hr) ▸ evaluateArgumentation_score_unit d
  · exact (okInj hr) ▸ createVocabulary_score_unit d
  · exact (okInj hr) ▸ createSpecifications_score_unit d
  · exact (okInj hr) ▸ createSubstantialAnswer_score_unit d
  · exact (okInj hr) ▸ understandSupported_score_unit nli hn d
  · exact (okInj hr) ▸ applyNewScenario_score_unit nli hn d
  · exact (okInj hr) ▸ createNovel_score_unit nli hn d
  · exact (okInj hr) ▸ adversarialVocabulary_score_unit d
  · exact (okInj hr) ▸ adversarialNoTargetVocab_score_unit d

/-- A concrete NLI backend reporting certain entailment, for the C9
witness. -/
def nliEntails : NliFn :=
  fun _ _ => .ok { entailment := some 1, neutral := some 0, contradiction := some 0 }

theorem nliEntails_wf : WellFormedNli nliEntails := by
  intro p h s hs
  injection hs with h2
  subst h2
  norm_num [Option.getD]

/-- Witness for C9 at the U1 rule on a concrete empty record. -/
theorem all_scores_in_unit_interval_witness :
    0 ≤ (isQuestionCheck dTrivial).score ∧ (isQuestionCheck dTrivial).score ≤ 1 :=
  all_scores_in_unit_interval nliEntails nliEntails_wf dTrivial IsQuestion
    (List.mem_cons_self _ _) (isQuestionCheck dTrivial) rfl

end CogBench
